import Mathlib

/-!
# fabric.go: channel / chaincode life cycle and the move-funds check

A shallow embedding of `src/fabric.go`.

* Every call that leaves the file (SDK, MSP client, resource management client,
  channel client, packager, the wait on the notifier against the timer) is answered
  by a `World`; the library functions `cauthdsl.FromString` and `strconv.Quote` are
  fields of the world too.
* A run is the list of the calls it issued, each with its arguments and the answer
  it got, together with the way it ended: a normal return, or the process exit of
  `logrus.Fatalln`, which runs no deferred call.
* `strconv.Atoi` is embedded from the Go library for a 64-bit platform, and the
  addition `valueInt+1` is the 64-bit one.
-/

namespace Fabric

/-! ## Data model -/

/-- A Go byte slice, one number per byte. -/
abbrev Bytes := List Nat

/-- The Go conversion from a string constant to its bytes (the constants of the file are ASCII). -/
def bytesOf (s : String) : Bytes := s.toList.map Char.toNat

/-- The rendering of a byte slice under the format verb s (exact on ASCII). -/
def showBytes (b : Bytes) : String := String.mk (b.map Char.ofNat)

/-- A Go error value, represented by the text of its Error method. -/
abbrev Err := String

def channelID : String := "orgchannel"
def orgName : String := "org1"
def orgAdmin : String := "Admin"
def ordererOrgName : String := "ordererorg"
def ccID : String := "exampleCC"

def ccInitArgs : List Bytes :=
  [bytesOf "init", bytesOf "a", bytesOf "100", bytesOf "b", bytesOf "200"]
def ccUpgradeArgs : List Bytes :=
  [bytesOf "init", bytesOf "a", bytesOf "100", bytesOf "b", bytesOf "400"]
def ccQueryArgs : List Bytes := [bytesOf "query", bytesOf "b"]
def ccTxArgs : List Bytes := [bytesOf "move", bytesOf "a", bytesOf "b", bytesOf "1"]

/-- The two retry policies of package retry that the file names. -/
inductive RetryOpts where
  | DefaultResMgmtOpts
  | DefaultChannelOpts
  deriving DecidableEq, Repr

/-- Request options of the resource management client. -/
inductive ResMgmtOption where
  | WithRetry (o : RetryOpts)
  | WithOrdererEndpoint (endpoint : String)
  deriving DecidableEq, Repr

/-- Request options of the channel client. -/
inductive ChannelOption where
  | WithRetry (o : RetryOpts)
  deriving DecidableEq, Repr

/-- A resource management client, identified by the context it was created from. -/
structure ResMgmtClient where
  user : String
  org : String
  deriving DecidableEq, Repr

/-- A channel client, identified by the channel context it was created from. -/
structure ChannelClient where
  channel : String
  user : String
  org : String
  deriving DecidableEq, Repr

/-- A signing identity handed out by the MSP client. -/
abbrev SigningIdentity := String

/-- A chaincode package built by the packager. -/
abbrev CCPackage := String

/-- A signature policy envelope of package cauthdsl. -/
inductive Policy where
  | SignedByAnyMember (ids : List String)
  | envelope (body : String)
  deriving DecidableEq, Repr

structure SaveChannelRequest where
  ChannelID : String
  ChannelConfigPath : String
  SigningIdentities : List SigningIdentity
  deriving DecidableEq, Repr

structure InstallCCRequest where
  Name : String
  Path : String
  Version : String
  Package : CCPackage
  deriving DecidableEq, Repr

structure InstantiateCCRequest where
  Name : String
  Path : String
  Version : String
  Args : List Bytes
  Policy : Policy
  deriving DecidableEq, Repr

structure UpgradeCCRequest where
  Name : String
  Path : String
  Version : String
  Args : List Bytes
  Policy : Policy
  deriving DecidableEq, Repr

/-- A request of the channel client (channel.Request). -/
structure Request where
  ChaincodeID : String
  Fcn : String
  Args : List Bytes
  deriving DecidableEq, Repr

/-- The handle returned by RegisterChaincodeEvent; the notifier channel belongs to it. -/
abbrev Registration := Nat

/-- A chaincode event, represented by its rendering under the format verb #v. -/
abbrev CCEvent := String

/-- The result pair (value, err) of a Go call. -/
inductive Result (α : Type) where
  | ok (a : α)
  | err (e : Err)
  deriving DecidableEq, Repr

/-- Whether the call reported an error. -/
def Result.failed {α : Type} : Result α → Bool
  | .ok _ => false
  | .err _ => true

/-- One call leaving the file, with its arguments and the answer it got. -/
inductive Event where
  | New (configOpt : String) (sdkOpts : List String) (r : Result Unit)
  | Close
  | resmgmtNew (user org : String) (r : Result Unit)
  | mspNew (org : String) (r : Result Unit)
  | GetSigningIdentity (name : String) (r : Result SigningIdentity)
  | SaveChannel (c : ResMgmtClient) (req : SaveChannelRequest) (opts : List ResMgmtOption)
      (r : Result String)
  | JoinChannel (c : ResMgmtClient) (channel : String) (opts : List ResMgmtOption)
      (r : Result Unit)
  | NewCCPackage (ccPath goPath : String) (r : Result CCPackage)
  | InstallCC (c : ResMgmtClient) (req : InstallCCRequest) (opts : List ResMgmtOption)
      (r : Result String)
  | InstantiateCC (c : ResMgmtClient) (channel : String) (req : InstantiateCCRequest)
      (opts : List ResMgmtOption) (r : Result String)
  | UpgradeCC (c : ResMgmtClient) (channel : String) (req : UpgradeCCRequest)
      (opts : List ResMgmtOption) (r : Result String)
  | channelNew (channel user org : String) (r : Result Unit)
  | Query (c : ChannelClient) (req : Request) (opts : List ChannelOption) (r : Result Bytes)
  | Execute (c : ChannelClient) (req : Request) (opts : List ChannelOption) (r : Result String)
  | RegisterChaincodeEvent (c : ChannelClient) (cc eventFilter : String)
      (r : Result Registration)
  | UnregisterChaincodeEvent (c : ChannelClient) (reg : Registration)
  | select (reg : Registration) (seconds : Nat) (r : Option CCEvent)
  | Info (msg : String)
  deriving DecidableEq, Repr

/-- Everything outside the file.  An answer may depend on the arguments of the
call and on the position of the call in the run (the number of calls issued
before it).  `select` answers the wait on the notifier of a registration
against a timer: `some ev` when an event is delivered first, `none` when the
timer resolves first. -/
structure World where
  New : Nat → String → List String → Result Unit
  resmgmtNew : Nat → String → String → Result Unit
  mspNew : Nat → String → Result Unit
  GetSigningIdentity : Nat → String → Result SigningIdentity
  SaveChannel : Nat → ResMgmtClient → SaveChannelRequest → List ResMgmtOption → Result String
  JoinChannel : Nat → ResMgmtClient → String → List ResMgmtOption → Result Unit
  NewCCPackage : Nat → String → String → Result CCPackage
  InstallCC : Nat → ResMgmtClient → InstallCCRequest → List ResMgmtOption → Result String
  InstantiateCC :
    Nat → ResMgmtClient → String → InstantiateCCRequest → List ResMgmtOption → Result String
  UpgradeCC :
    Nat → ResMgmtClient → String → UpgradeCCRequest → List ResMgmtOption → Result String
  channelNew : Nat → String → String → String → Result Unit
  Query : Nat → ChannelClient → Request → List ChannelOption → Result Bytes
  Execute : Nat → ChannelClient → Request → List ChannelOption → Result String
  RegisterChaincodeEvent : Nat → ChannelClient → String → String → Result Registration
  select : Nat → Registration → Nat → Option CCEvent
  FromString : String → Result Policy
  Quote : Bytes → String

/-! ## Runs -/

/-- How a piece of the program ends: it returns, or `logrus.Fatalln` logs the
message and exits the process (deferred calls are not run by an exit). -/
inductive Outcome (α : Type) where
  | returned (a : α)
  | exited (msg : String)
  deriving DecidableEq, Repr

/-- The calls issued by a piece of the program, in order, and how it ended. -/
structure Step (α : Type) where
  trace : List Event
  out : Outcome α

/-- A piece of the program: given the number of calls issued before it starts,
the calls it issues and how it ends. -/
def Prog (α : Type) : Type := Nat → Step α

def Prog.pure {α : Type} (a : α) : Prog α := fun _ => ⟨[], .returned a⟩

def Prog.bind {α β : Type} (m : Prog α) (f : α → Prog β) : Prog β := fun t =>
  match m t with
  | ⟨es, .returned a⟩ =>
    match f a (t + es.length) with
    | ⟨es2, o⟩ => ⟨es ++ es2, o⟩
  | ⟨es, .exited msg⟩ => ⟨es, .exited msg⟩

instance : Monad Prog where
  pure := Prog.pure
  bind := Prog.bind

/-- A call leaving the file: ask the world, record the call with its answer. -/
def call {ρ : Type} (ask : Nat → ρ) (ev : ρ → Event) : Prog ρ := fun t =>
  ⟨[ev (ask t)], .returned (ask t)⟩

/-- A call without a result. -/
def emit (e : Event) : Prog Unit := fun _ => ⟨[e], .returned ()⟩

/-- The log call `logrus.Fatalln(msg)`: the process exits. -/
def Fatalln {α : Type} (msg : String) : Prog α := fun _ => ⟨[], .exited msg⟩

/-- The log call `logrus.Info(msg)`. -/
def Info (msg : String) : Prog Unit := emit (.Info msg)

/-- The Go statement `defer d` followed by `body`: `d` runs when the body
returns, and does not run when the process exits inside the body. -/
def deferring {α : Type} (d : Prog Unit) (body : Prog α) : Prog α := do
  let a ← body
  d
  pure a

/-! ## strconv.Atoi

The conversion is not code of the repository: it is embedded from the Go library
(strconv/atoi.go: Atoi, ParseInt, ParseUint), for base 10 on a 64-bit platform. -/

/-- The error kinds of package strconv: ErrSyntax and ErrRange. -/
inductive NumError where
  | ErrSyntaxKind
  | ErrRangeKind
  deriving DecidableEq, Repr

def intSize : Nat := 64

/-- The conversion int64(u) of an unsigned 64-bit value. -/
def toInt64 (u : Nat) : Int :=
  if u % 2 ^ 64 < 2 ^ 63 then (u % 2 ^ 64 : Nat) else (u % 2 ^ 64 : Nat) - 2 ^ 64

/-- A mathematical integer reduced to the signed 64-bit value the machine holds. -/
def wrapInt64 (i : Int) : Int := (i + 2 ^ 63) % 2 ^ 64 - 2 ^ 63

/-- The loop of strconv.ParseUint for base 10 and bit size 64: the value and
the error, as the Go function returns both. -/
def parseUintLoop : List Nat → Nat → Nat × Option NumError
  | [], n => (n, none)
  | c :: cs, n =>
    if 48 ≤ c ∧ c ≤ 57 then
      let d := c - 48
      if n ≥ (2 ^ 64 - 1) / 10 + 1 then
        (2 ^ 64 - 1, some .ErrRangeKind)
      else
        let n10 := n * 10
        let n1 := (n10 + d) % 2 ^ 64
        if n1 < n10 ∨ n1 > 2 ^ 64 - 1 then
          (2 ^ 64 - 1, some .ErrRangeKind)
        else
          parseUintLoop cs n1
    else
      (0, some .ErrSyntaxKind)

/-- The call strconv.ParseUint(s, 10, 0). -/
def ParseUint (s : Bytes) : Nat × Option NumError :=
  if s = [] then (0, some .ErrSyntaxKind) else parseUintLoop s 0

/-- The call strconv.ParseInt(s, 10, 0) on a 64-bit platform. -/
def ParseInt (s : Bytes) : Int × Option NumError :=
  match s with
  | [] => (0, some .ErrSyntaxKind)
  | c :: cs =>
    let neg := decide (c = 45)
    let s1 := if c = 43 then cs else if c = 45 then cs else c :: cs
    match ParseUint s1 with
    | (_, some .ErrSyntaxKind) => (0, some .ErrSyntaxKind)
    | (un, _) =>
      let cutoff := 2 ^ (intSize - 1)
      if neg = false ∧ un ≥ cutoff then
        ((cutoff : Int) - 1, some .ErrRangeKind)
      else if neg = true ∧ un > cutoff then
        (-(cutoff : Int), some .ErrRangeKind)
      else
        let n := toInt64 un
        (if neg then wrapInt64 (-n) else n, none)

/-- The fast path loop of strconv.Atoi. -/
def atoiFast : List Nat → Int → Option Int
  | [], n => some n
  | ch :: cs, n =>
    if 48 ≤ ch ∧ ch ≤ 57 then atoiFast cs (n * 10 + ((ch - 48 : Nat) : Int)) else none

/-- The function strconv.Atoi on a 64-bit platform: the int and the error. -/
def Atoi (s : Bytes) : Int × Option NumError :=
  if 0 < s.length ∧ s.length < 19 then
    match s with
    | [] => (0, some .ErrSyntaxKind)
    | c :: cs =>
      let s1 := if c = 45 ∨ c = 43 then cs else c :: cs
      if (c = 45 ∨ c = 43) ∧ s1.length < 1 then
        (0, some .ErrSyntaxKind)
      else
        match atoiFast s1 0 with
        | none => (0, some .ErrSyntaxKind)
        | some n => (if c = 45 then -n else n, none)
  else
    ParseInt s

/-- The text of the Error method of the error strconv.Atoi returns for input s. -/
def NumError.Error (w : World) (s : Bytes) : NumError → String
  | .ErrSyntaxKind => "strconv.Atoi: parsing " ++ w.Quote s ++ ": invalid syntax"
  | .ErrRangeKind => "strconv.Atoi: parsing " ++ w.Quote s ++ ": value out of range"

/-! ## The functions of fabric.go -/

def queryCC (w : World) (client : ChannelClient) : Prog Bytes := do
  let req : Request := { ChaincodeID := ccID, Fcn := "invoke", Args := ccQueryArgs }
  let opts := [ChannelOption.WithRetry .DefaultChannelOpts]
  let r ← call (fun t => w.Query t client req opts) (Event.Query client req opts)
  match r with
  | .err e => Fatalln ("Failed to query funds: " ++ e)
  | .ok payload => pure payload

def executeCC (w : World) (client : ChannelClient) : Prog Unit := do
  let req : Request := { ChaincodeID := ccID, Fcn := "invoke", Args := ccTxArgs }
  let opts := [ChannelOption.WithRetry .DefaultChannelOpts]
  let r ← call (fun t => w.Execute t client req opts) (Event.Execute client req opts)
  match r with
  | .err e => Fatalln ("Failed to move funds: " ++ e)
  | .ok _ => pure ()

def verifyFundsIsMoved (w : World) (client : ChannelClient) (value : Bytes) : Prog Unit := do
  let newValue ← queryCC w client
  match Atoi value with
  | (_, some e) => Fatalln (e.Error w value)
  | (valueInt, none) =>
    match Atoi newValue with
    | (_, some e) => Fatalln (e.Error w newValue)
    | (valueAfterInvokeInt, none) =>
      if wrapInt64 (valueInt + 1) ≠ valueAfterInvokeInt then
        Fatalln ("Execute failed. Before: " ++ showBytes value ++ ", after: " ++ showBytes newValue)
      else
        pure ()

def createChannel (w : World) (resMgmtClient : ResMgmtClient) : Prog Unit := do
  let r ← call (fun t => w.mspNew t orgName) (Event.mspNew orgName)
  match r with
  | .err e => Fatalln e
  | .ok _ =>
    let r ← call (fun t => w.GetSigningIdentity t orgAdmin) (Event.GetSigningIdentity orgAdmin)
    match r with
    | .err e => Fatalln e
    | .ok adminIdentity =>
      let req : SaveChannelRequest :=
        { ChannelID := channelID,
          ChannelConfigPath := "channel/orgchannel.tx",
          SigningIdentities := [adminIdentity] }
      let opts := [ResMgmtOption.WithRetry .DefaultResMgmtOpts,
        ResMgmtOption.WithOrdererEndpoint "orderer.example.com"]
      let r ← call (fun t => w.SaveChannel t resMgmtClient req opts)
        (Event.SaveChannel resMgmtClient req opts)
      match r with
      | .err e => Fatalln ("Failed to create channel: " ++ e)
      | .ok txID => Info ("Transaction ID: " ++ txID)

def createCC (w : World) (orgResMgmt : ResMgmtClient) : Prog Unit := do
  let r ← call (fun t => w.NewCCPackage t "example_cc" "./chaincode")
    (Event.NewCCPackage "example_cc" "./chaincode")
  match r with
  | .err e => Fatalln e
  | .ok ccPkg =>
    let installCCReq : InstallCCRequest :=
      { Name := ccID, Path := "example_cc", Version := "0", Package := ccPkg }
    let opts := [ResMgmtOption.WithRetry .DefaultResMgmtOpts]
    let r ← call (fun t => w.InstallCC t orgResMgmt installCCReq opts)
      (Event.InstallCC orgResMgmt installCCReq opts)
    match r with
    | .err e => Fatalln e
    | .ok _ =>
      let ccPolicy := Policy.SignedByAnyMember ["Org1MSP"]
      let req : InstantiateCCRequest :=
        { Name := ccID, Path := "example_cc", Version := "0", Args := ccInitArgs,
          Policy := ccPolicy }
      let r ← call (fun t => w.InstantiateCC t orgResMgmt channelID req opts)
        (Event.InstantiateCC orgResMgmt channelID req opts)
      match r with
      | .err e => Fatalln ("Failed to instantiate chaincode: " ++ e)
      | .ok resp => Info ("Transaction ID: " ++ resp)

def upgradeCC (w : World) (org1ResMgmt org2ResMgmt : ResMgmtClient) : Prog Unit := do
  let r ← call (fun t => w.NewCCPackage t "example_cc" "./chaincode")
    (Event.NewCCPackage "example_cc" "./chaincode")
  match r with
  | .err e => Fatalln e
  | .ok ccPkg =>
    let installCCReq : InstallCCRequest :=
      { Name := ccID, Path := "example_cc", Version := "1", Package := ccPkg }
    let opts := [ResMgmtOption.WithRetry .DefaultResMgmtOpts]
    let r ← call (fun t => w.InstallCC t org1ResMgmt installCCReq opts)
      (Event.InstallCC org1ResMgmt installCCReq opts)
    match r with
    | .err e => Fatalln e
    | .ok _ =>
      let r ← call (fun t => w.InstallCC t org2ResMgmt installCCReq opts)
        (Event.InstallCC org2ResMgmt installCCReq opts)
      match r with
      | .err e => Fatalln e
      | .ok _ =>
        match w.FromString "AND ('Org1MSP.member','Org2MSP.member')" with
        | .err e => Fatalln e
        | .ok ccPolicy =>
          let req : UpgradeCCRequest :=
            { Name := ccID, Path := "example_cc", Version := "1", Args := ccUpgradeArgs,
              Policy := ccPolicy }
          let r ← call (fun t => w.UpgradeCC t org1ResMgmt channelID req [])
            (Event.UpgradeCC org1ResMgmt channelID req [])
          match r with
          | .err e => Fatalln ("Failed to upgrade chaincode: " ++ e)
          | .ok upgradeResp => Info ("Transaction ID: " ++ upgradeResp)

def createChannelAndCC (w : World) : Prog Unit := do
  let r ← call (fun t => w.resmgmtNew t orgAdmin ordererOrgName)
    (Event.resmgmtNew orgAdmin ordererOrgName)
  match r with
  | .err e => Fatalln ("Failed to create channel management client: " ++ e)
  | .ok _ =>
    let resMgmtClient : ResMgmtClient := { user := orgAdmin, org := ordererOrgName }
    createChannel w resMgmtClient
    let r ← call (fun t => w.resmgmtNew t orgAdmin orgName) (Event.resmgmtNew orgAdmin orgName)
    match r with
    | .err e => Fatalln ("Failed to create new resource management client: " ++ e)
    | .ok _ =>
      let orgResMgmt : ResMgmtClient := { user := orgAdmin, org := orgName }
      let opts := [ResMgmtOption.WithRetry .DefaultResMgmtOpts,
        ResMgmtOption.WithOrdererEndpoint "orderer.example.com"]
      let r ← call (fun t => w.JoinChannel t orgResMgmt channelID opts)
        (Event.JoinChannel orgResMgmt channelID opts)
      match r with
      | .err e => Fatalln ("Org peers failed to JoinChannel: " ++ e)
      | .ok _ => createCC w orgResMgmt

def setupAndRun (w : World) (doSetup : Bool) (configOpt : String) (sdkOpts : List String) :
    Prog Unit := do
  let r ← call (fun t => w.New t configOpt sdkOpts) (Event.New configOpt sdkOpts)
  match r with
  | .err e => Fatalln ("Failed to create new SDK: " ++ e)
  | .ok _ =>
    deferring (emit .Close) do
      if doSetup then
        createChannelAndCC w
      let r ← call (fun t => w.channelNew t channelID "User1" orgName)
        (Event.channelNew channelID "User1" orgName)
      match r with
      | .err e => Fatalln ("Failed to create new channel client: " ++ e)
      | .ok _ =>
        let client : ChannelClient := { channel := channelID, user := "User1", org := orgName }
        let value ← queryCC w client
        let eventID := "mash([a-zA-Z]+)"
        let r ← call (fun t => w.RegisterChaincodeEvent t client ccID eventID)
          (Event.RegisterChaincodeEvent client ccID eventID)
        match r with
        | .err e => Fatalln ("Failed to register cc event: " ++ e)
        | .ok reg =>
          deferring (emit (.UnregisterChaincodeEvent client reg)) do
            executeCC w client
            let r ← call (fun t => w.select t reg 20) (Event.select reg 20)
            match r with
            | some ccEvent => Info ("Received CC event: " ++ ccEvent ++ "\n")
            | none => Fatalln ("Did NOT receive CC event for eventId(" ++ eventID ++ ")\n")
            verifyFundsIsMoved w client value

def Run (w : World) : Prog Unit := setupAndRun w false "./config/config.yaml" []

def RunWithoutSetup (w : World) : Prog Unit := setupAndRun w true "./config/config.yaml" []

/-! ## Decimal integers, as the specification speaks of them -/

/-- Spec side: the value of a run of decimal digits read after the value n. -/
def digitsAcc : List Nat → Nat → Option Nat
  | [], n => some n
  | c :: cs, n => if 48 ≤ c ∧ c ≤ 57 then digitsAcc cs (n * 10 + (c - 48)) else none

/-- Spec side: the value of a non-empty run of decimal digits. -/
def digitsValue (s : Bytes) : Option Nat := if s = [] then none else digitsAcc s 0

/-- Spec side: the mathematical integer written by a byte string, an optional
sign followed by one or more decimal digits. -/
def decimalInteger : Bytes → Option Int
  | [] => none
  | c :: cs =>
    if c = 43 then (digitsValue cs).map (fun n => (n : Int))
    else if c = 45 then (digitsValue cs).map (fun n => -(n : Int))
    else (digitsValue (c :: cs)).map (fun n => (n : Int))

/-! ## Kinds of calls -/

/-- The call reported an error: an error result, or the timer resolving before
an event is delivered. -/
def Event.failed : Event → Bool
  | .New _ _ r => r.failed
  | .Close => false
  | .resmgmtNew _ _ r => r.failed
  | .mspNew _ r => r.failed
  | .GetSigningIdentity _ r => r.failed
  | .SaveChannel _ _ _ r => r.failed
  | .JoinChannel _ _ _ r => r.failed
  | .NewCCPackage _ _ r => r.failed
  | .InstallCC _ _ _ r => r.failed
  | .InstantiateCC _ _ _ _ r => r.failed
  | .UpgradeCC _ _ _ _ r => r.failed
  | .channelNew _ _ _ r => r.failed
  | .Query _ _ _ r => r.failed
  | .Execute _ _ _ r => r.failed
  | .RegisterChaincodeEvent _ _ _ r => r.failed
  | .UnregisterChaincodeEvent _ _ => false
  | .select _ _ r => r.isNone
  | .Info _ => false

def Event.isQuery : Event → Bool
  | .Query _ _ _ _ => true
  | _ => false

def Event.isExecute : Event → Bool
  | .Execute _ _ _ _ => true
  | _ => false

def Event.isUpgrade : Event → Bool
  | .UpgradeCC _ _ _ _ _ => true
  | _ => false

def Event.isUnregister : Event → Bool
  | .UnregisterChaincodeEvent _ _ => true
  | _ => false

/-- The four provisioning calls: SaveChannel, JoinChannel, InstallCC, InstantiateCC. -/
def Event.isProvisioning : Event → Bool
  | .SaveChannel _ _ _ _ => true
  | .JoinChannel _ _ _ _ => true
  | .InstallCC _ _ _ _ => true
  | .InstantiateCC _ _ _ _ _ => true
  | _ => false

/-- The calls only createChannelAndCC and its callees issue. -/
def Event.inSetup : Event → Bool
  | .resmgmtNew _ _ _ => true
  | .mspNew _ _ => true
  | .GetSigningIdentity _ _ => true
  | .SaveChannel _ _ _ _ => true
  | .JoinChannel _ _ _ _ => true
  | .NewCCPackage _ _ _ => true
  | .InstallCC _ _ _ _ => true
  | .InstantiateCC _ _ _ _ _ => true
  | _ => false

/-- The operations on the channel client and on the notifier it hands out. -/
def Event.onChannelClient : Event → Bool
  | .Query _ _ _ _ => true
  | .Execute _ _ _ _ => true
  | .RegisterChaincodeEvent _ _ _ _ => true
  | .UnregisterChaincodeEvent _ _ => true
  | .select _ _ _ => true
  | _ => false

def Event.isInstall : Event → Bool
  | .InstallCC _ _ _ _ => true
  | _ => false

/-- The wait ended with the timer resolving before an event was delivered. -/
def Event.isTimeout : Event → Bool
  | .select _ _ none => true
  | _ => false

/-- The deferred calls of setupAndRun. -/
def Event.isDeferred : Event → Bool
  | .UnregisterChaincodeEvent _ _ => true
  | .Close => true
  | _ => false

/-- The seven kinds of network call. -/
def Event.isNetworkCall : Event → Bool
  | .SaveChannel _ _ _ _ => true
  | .JoinChannel _ _ _ _ => true
  | .InstallCC _ _ _ _ => true
  | .InstantiateCC _ _ _ _ _ => true
  | .UpgradeCC _ _ _ _ _ => true
  | .Query _ _ _ _ => true
  | .Execute _ _ _ _ => true
  | _ => false

def ResMgmtOption.isRetry : ResMgmtOption → Bool
  | .WithRetry _ => true
  | _ => false

def ChannelOption.isRetry : ChannelOption → Bool
  | .WithRetry _ => true

/-- The call carries a retry option (resmgmt.WithRetry or channel.WithRetry). -/
def Event.hasRetry : Event → Bool
  | .SaveChannel _ _ opts _ => opts.any ResMgmtOption.isRetry
  | .JoinChannel _ _ opts _ => opts.any ResMgmtOption.isRetry
  | .InstallCC _ _ opts _ => opts.any ResMgmtOption.isRetry
  | .InstantiateCC _ _ _ opts _ => opts.any ResMgmtOption.isRetry
  | .UpgradeCC _ _ _ opts _ => opts.any ResMgmtOption.isRetry
  | .Query _ _ opts _ => opts.any ChannelOption.isRetry
  | .Execute _ _ opts _ => opts.any ChannelOption.isRetry
  | _ => false

/-- The run ended with the fatal exit. -/
def Outcome.isExited {α : Type} : Outcome α → Bool
  | .exited _ => true
  | .returned _ => false

/-- A step that starts with the call e and goes on as s. -/
def Step.cons {α : Type} (e : Event) (s : Step α) : Step α := ⟨e :: s.trace, s.out⟩

/-! ## The calls of the program, by call site -/

def saveChannelRequest (adminIdentity : SigningIdentity) : SaveChannelRequest :=
  { ChannelID := channelID, ChannelConfigPath := "channel/orgchannel.tx",
    SigningIdentities := [adminIdentity] }

def installCCRequest (version : String) (ccPkg : CCPackage) : InstallCCRequest :=
  { Name := ccID, Path := "example_cc", Version := version, Package := ccPkg }

def instantiateCCRequest : InstantiateCCRequest :=
  { Name := ccID, Path := "example_cc", Version := "0", Args := ccInitArgs,
    Policy := Policy.SignedByAnyMember ["Org1MSP"] }

def upgradeCCRequest (ccPolicy : Policy) : UpgradeCCRequest :=
  { Name := ccID, Path := "example_cc", Version := "1", Args := ccUpgradeArgs,
    Policy := ccPolicy }

def userClient : ChannelClient := { channel := channelID, user := "User1", org := orgName }

def evOrdererClient (r : Result Unit) : Event := .resmgmtNew orgAdmin ordererOrgName r
def evMsp (r : Result Unit) : Event := .mspNew orgName r
def evIdentity (r : Result SigningIdentity) : Event := .GetSigningIdentity orgAdmin r
def evSaveChannel (c : ResMgmtClient) (adminIdentity : SigningIdentity) (r : Result String) :
    Event :=
  .SaveChannel c (saveChannelRequest adminIdentity)
    [.WithRetry .DefaultResMgmtOpts, .WithOrdererEndpoint "orderer.example.com"] r
def evOrgClient (r : Result Unit) : Event := .resmgmtNew orgAdmin orgName r
def evJoinChannel (r : Result Unit) : Event :=
  .JoinChannel ⟨orgAdmin, orgName⟩ channelID
    [.WithRetry .DefaultResMgmtOpts, .WithOrdererEndpoint "orderer.example.com"] r
def evPackage (r : Result CCPackage) : Event := .NewCCPackage "example_cc" "./chaincode" r
def evInstall (c : ResMgmtClient) (version : String) (ccPkg : CCPackage) (r : Result String) :
    Event :=
  .InstallCC c (installCCRequest version ccPkg) [.WithRetry .DefaultResMgmtOpts] r
def evInstantiate (c : ResMgmtClient) (r : Result String) : Event :=
  .InstantiateCC c channelID instantiateCCRequest [.WithRetry .DefaultResMgmtOpts] r
def evUpgrade (c : ResMgmtClient) (ccPolicy : Policy) (r : Result String) : Event :=
  .UpgradeCC c channelID (upgradeCCRequest ccPolicy) [] r
def evTransactionID (tx : String) : Event := .Info ("Transaction ID: " ++ tx)
def evChannelClient (r : Result Unit) : Event := .channelNew channelID "User1" orgName r
def evQuery (c : ChannelClient) (r : Result Bytes) : Event :=
  .Query c { ChaincodeID := ccID, Fcn := "invoke", Args := ccQueryArgs }
    [.WithRetry .DefaultChannelOpts] r
def evExecute (c : ChannelClient) (r : Result String) : Event :=
  .Execute c { ChaincodeID := ccID, Fcn := "invoke", Args := ccTxArgs }
    [.WithRetry .DefaultChannelOpts] r
def evRegister (r : Result Registration) : Event :=
  .RegisterChaincodeEvent userClient ccID "mash([a-zA-Z]+)" r
def evReceived (ccEvent : CCEvent) : Event := .Info ("Received CC event: " ++ ccEvent ++ "\n")

/-- The message of the exit taken when the timer resolves before an event is delivered. -/
def timeoutReport : String := "Did NOT receive CC event for eventId(mash([a-zA-Z]+))\n"

/-- The check of verifyFundsIsMoved passes on the payloads value and newValue. -/
def Verified (value newValue : Bytes) : Prop :=
  ∃ V W : Int, Atoi value = (V, none) ∧ Atoi newValue = (W, none) ∧ wrapInt64 (V + 1) = W

/-- The calls of a provisioning in which every call succeeded. -/
def provisionDone (adminIdentity : SigningIdentity) (tx1 : String) (ccPkg : CCPackage)
    (ir tx2 : String) : List Event :=
  [evOrdererClient (.ok ()), evMsp (.ok ()), evIdentity (.ok adminIdentity),
    evSaveChannel ⟨orgAdmin, ordererOrgName⟩ adminIdentity (.ok tx1), evTransactionID tx1,
    evOrgClient (.ok ()), evJoinChannel (.ok ()), evPackage (.ok ccPkg),
    evInstall ⟨orgAdmin, orgName⟩ "0" ccPkg (.ok ir),
    evInstantiate ⟨orgAdmin, orgName⟩ (.ok tx2), evTransactionID tx2]

/-- A provisioning stopped by its first failed call. -/
def ProvisionFailed (s : Step Unit) : Prop :=
  (∃ e, s = ⟨[evOrdererClient (.err e)],
    .exited ("Failed to create channel management client: " ++ e)⟩) ∨
  (∃ e, s = ⟨[evOrdererClient (.ok ()), evMsp (.err e)], .exited e⟩) ∨
  (∃ e, s = ⟨[evOrdererClient (.ok ()), evMsp (.ok ()), evIdentity (.err e)], .exited e⟩) ∨
  (∃ id e, s = ⟨[evOrdererClient (.ok ()), evMsp (.ok ()), evIdentity (.ok id),
      evSaveChannel ⟨orgAdmin, ordererOrgName⟩ id (.err e)],
    .exited ("Failed to create channel: " ++ e)⟩) ∨
  (∃ id tx1 e, s = ⟨[evOrdererClient (.ok ()), evMsp (.ok ()), evIdentity (.ok id),
      evSaveChannel ⟨orgAdmin, ordererOrgName⟩ id (.ok tx1), evTransactionID tx1,
      evOrgClient (.err e)],
    .exited ("Failed to create new resource management client: " ++ e)⟩) ∨
  (∃ id tx1 e, s = ⟨[evOrdererClient (.ok ()), evMsp (.ok ()), evIdentity (.ok id),
      evSaveChannel ⟨orgAdmin, ordererOrgName⟩ id (.ok tx1), evTransactionID tx1,
      evOrgClient (.ok ()), evJoinChannel (.err e)],
    .exited ("Org peers failed to JoinChannel: " ++ e)⟩) ∨
  (∃ id tx1 e, s = ⟨[evOrdererClient (.ok ()), evMsp (.ok ()), evIdentity (.ok id),
      evSaveChannel ⟨orgAdmin, ordererOrgName⟩ id (.ok tx1), evTransactionID tx1,
      evOrgClient (.ok ()), evJoinChannel (.ok ()), evPackage (.err e)], .exited e⟩) ∨
  (∃ id tx1 pkg e, s = ⟨[evOrdererClient (.ok ()), evMsp (.ok ()), evIdentity (.ok id),
      evSaveChannel ⟨orgAdmin, ordererOrgName⟩ id (.ok tx1), evTransactionID tx1,
      evOrgClient (.ok ()), evJoinChannel (.ok ()), evPackage (.ok pkg),
      evInstall ⟨orgAdmin, orgName⟩ "0" pkg (.err e)], .exited e⟩) ∨
  (∃ id tx1 pkg ir e, s = ⟨[evOrdererClient (.ok ()), evMsp (.ok ()), evIdentity (.ok id),
      evSaveChannel ⟨orgAdmin, ordererOrgName⟩ id (.ok tx1), evTransactionID tx1,
      evOrgClient (.ok ()), evJoinChannel (.ok ()), evPackage (.ok pkg),
      evInstall ⟨orgAdmin, orgName⟩ "0" pkg (.ok ir),
      evInstantiate ⟨orgAdmin, orgName⟩ (.err e)],
    .exited ("Failed to instantiate chaincode: " ++ e)⟩)

/-- The calls of a cycle in which every call succeeded and the check passed. -/
def cycleDone (v1 : Bytes) (reg : Registration) (tx : String) (ev : CCEvent) (v2 : Bytes) :
    List Event :=
  [evChannelClient (.ok ()), evQuery userClient (.ok v1), evRegister (.ok reg),
    evExecute userClient (.ok tx), .select reg 20 (some ev), evReceived ev,
    evQuery userClient (.ok v2), .UnregisterChaincodeEvent userClient reg]

/-- A cycle stopped by its first failed call, by the timer, or by the check. -/
def CycleFailed (s : Step Unit) : Prop :=
  (∃ e, s = ⟨[evChannelClient (.err e)],
    .exited ("Failed to create new channel client: " ++ e)⟩) ∨
  (∃ e, s = ⟨[evChannelClient (.ok ()), evQuery userClient (.err e)],
    .exited ("Failed to query funds: " ++ e)⟩) ∨
  (∃ v1 e, s = ⟨[evChannelClient (.ok ()), evQuery userClient (.ok v1), evRegister (.err e)],
    .exited ("Failed to register cc event: " ++ e)⟩) ∨
  (∃ v1 reg e, s = ⟨[evChannelClient (.ok ()), evQuery userClient (.ok v1),
      evRegister (.ok reg), evExecute userClient (.err e)],
    .exited ("Failed to move funds: " ++ e)⟩) ∨
  (∃ v1 reg tx, s = ⟨[evChannelClient (.ok ()), evQuery userClient (.ok v1),
      evRegister (.ok reg), evExecute userClient (.ok tx), .select reg 20 none],
    .exited timeoutReport⟩) ∨
  (∃ v1 reg tx ev e, s = ⟨[evChannelClient (.ok ()), evQuery userClient (.ok v1),
      evRegister (.ok reg), evExecute userClient (.ok tx), .select reg 20 (some ev),
      evReceived ev, evQuery userClient (.err e)],
    .exited ("Failed to query funds: " ++ e)⟩) ∨
  (∃ v1 reg tx ev v2 msg, ¬ Verified v1 v2 ∧
    s = ⟨[evChannelClient (.ok ()), evQuery userClient (.ok v1),
      evRegister (.ok reg), evExecute userClient (.ok tx), .select reg 20 (some ev),
      evReceived ev, evQuery userClient (.ok v2)], .exited msg⟩)

/-- What precedes the cycle in a run that reaches it: nothing without setup, a
complete provisioning with setup. -/
def ProvisionPrefix (doSetup : Bool) (pre : List Event) : Prop :=
  (doSetup = false ∧ pre = []) ∨
  (doSetup = true ∧ ∃ id tx1 pkg ir tx2, pre = provisionDone id tx1 pkg ir tx2)

/-- Lines 60 to 90 of setupAndRun: what the run does after the optional provisioning. -/
def cycleBody (w : World) : Prog Unit := do
  let r ← call (fun t => w.channelNew t channelID "User1" orgName)
    (Event.channelNew channelID "User1" orgName)
  match r with
  | .err e => Fatalln ("Failed to create new channel client: " ++ e)
  | .ok _ =>
    let client : ChannelClient := { channel := channelID, user := "User1", org := orgName }
    let value ← queryCC w client
    let eventID := "mash([a-zA-Z]+)"
    let r ← call (fun t => w.RegisterChaincodeEvent t client ccID eventID)
      (Event.RegisterChaincodeEvent client ccID eventID)
    match r with
    | .err e => Fatalln ("Failed to register cc event: " ++ e)
    | .ok reg =>
      deferring (emit (.UnregisterChaincodeEvent client reg)) do
        executeCC w client
        let r ← call (fun t => w.select t reg 20) (Event.select reg 20)
        match r with
        | some ccEvent => Info ("Received CC event: " ++ ccEvent ++ "\n")
        | none => Fatalln ("Did NOT receive CC event for eventId(" ++ eventID ++ ")\n")
        verifyFundsIsMoved w client value

/-- The policy expression upgradeCC hands to cauthdsl.FromString. -/
def upgradePolicyText : String := "AND ('Org1MSP.member','Org2MSP.member')"

/-- The runs of upgradeCC: stopped by the first failed step, or complete. -/
def UpgradePath (w : World) (org1 org2 : ResMgmtClient) (s : Step Unit) : Prop :=
  (∃ e, s = ⟨[evPackage (.err e)], .exited e⟩) ∨
  (∃ pkg e, s = ⟨[evPackage (.ok pkg), evInstall org1 "1" pkg (.err e)], .exited e⟩) ∨
  (∃ pkg i1 e, s = ⟨[evPackage (.ok pkg), evInstall org1 "1" pkg (.ok i1),
      evInstall org2 "1" pkg (.err e)], .exited e⟩) ∨
  (∃ pkg i1 i2 e, w.FromString upgradePolicyText = .err e ∧
    s = ⟨[evPackage (.ok pkg), evInstall org1 "1" pkg (.ok i1),
      evInstall org2 "1" pkg (.ok i2)], .exited e⟩) ∨
  (∃ pkg i1 i2 p e, w.FromString upgradePolicyText = .ok p ∧
    s = ⟨[evPackage (.ok pkg), evInstall org1 "1" pkg (.ok i1),
      evInstall org2 "1" pkg (.ok i2), evUpgrade org1 p (.err e)],
      .exited ("Failed to upgrade chaincode: " ++ e)⟩) ∨
  (∃ pkg i1 i2 p tx, w.FromString upgradePolicyText = .ok p ∧
    s = ⟨[evPackage (.ok pkg), evInstall org1 "1" pkg (.ok i1),
      evInstall org2 "1" pkg (.ok i2), evUpgrade org1 p (.ok tx), evTransactionID tx],
      .returned ()⟩)

/-! ## Checks computed on a run -/

/-- The checks behind the abort property, as one computation on a run. -/
def abortCheck (s : Step Unit) : Bool :=
  s.trace.dropLast.all (fun e => !e.failed) &&
  (!(s.trace.any Event.failed) || s.out.isExited) &&
  (!((s.trace.find? Event.isQuery).any Event.failed) || s.trace.all (fun x => !x.isExecute)) &&
  (!(s.trace.any (fun x => x.isExecute && x.failed)) ||
    (s.trace.filter Event.isQuery).length == 1) &&
  (!s.out.isExited || s.trace.all (fun x => !x.isDeferred))

/-- The number of unregistrations a run must show: none when it exits, one when it returns. -/
def unregisterCheck (s : Step Unit) : Bool :=
  (s.trace.filter Event.isUnregister).length == (if s.out.isExited then 0 else 1)

/-! ## Worlds used at concrete inputs -/

/-- A world in which every call succeeds, with the given answers to Query and to the wait. -/
def plainWorld (query : Nat → Result Bytes) (sel : Option CCEvent) : World where
  New := fun _ _ _ => .ok ()
  resmgmtNew := fun _ _ _ => .ok ()
  mspNew := fun _ _ => .ok ()
  GetSigningIdentity := fun _ _ => .ok "admin-id"
  SaveChannel := fun _ _ _ _ => .ok "tx-save"
  JoinChannel := fun _ _ _ _ => .ok ()
  NewCCPackage := fun _ _ _ => .ok "pkg"
  InstallCC := fun _ _ _ _ => .ok "installed"
  InstantiateCC := fun _ _ _ _ _ => .ok "tx-inst"
  UpgradeCC := fun _ _ _ _ _ => .ok "tx-up"
  channelNew := fun _ _ _ _ => .ok ()
  Query := fun t _ _ _ => query t
  Execute := fun _ _ _ _ => .ok "tx-exec"
  RegisterChaincodeEvent := fun _ _ _ _ => .ok 7
  select := fun _ _ _ => sel
  FromString := fun s => .ok (.envelope s)
  Quote := fun b => "\"" ++ showBytes b ++ "\""

/-- The answers of a ledger that holds the first payload up to the given position of
the run and the second payload after it. -/
def ledger (upTo : Nat) (v1 v2 : Bytes) : Nat → Result Bytes :=
  fun t => if t ≤ upTo then .ok v1 else .ok v2

theorem digitsAcc_ge : ∀ (cs : List Nat) (n m : Nat), digitsAcc cs n = some m → n ≤ m := by
  intro cs
  induction cs with
  | nil => intro n m h; simp [digitsAcc] at h; omega
  | cons c cs ih =>
    intro n m h
    simp only [digitsAcc] at h
    split at h
    · have := ih _ _ h; omega
    · cases h

theorem digitsAcc_lt : ∀ (cs : List Nat) (n m : Nat),
    digitsAcc cs n = some m → m < (n + 1) * 10 ^ cs.length := by
  intro cs
  induction cs with
  | nil => intro n m h; simp [digitsAcc] at h; simp; try omega
  | cons c cs ih =>
    intro n m h
    simp only [digitsAcc] at h
    split at h
    · rename_i hc
      have h1 := ih _ _ h
      have h2 : (n * 10 + (c - 48) + 1) * 10 ^ cs.length ≤ ((n + 1) * 10) * 10 ^ cs.length :=
        Nat.mul_le_mul_right _ (by omega)
      simp only [List.length_cons, pow_succ]
      calc m < (n * 10 + (c - 48) + 1) * 10 ^ cs.length := h1
        _ ≤ ((n + 1) * 10) * 10 ^ cs.length := h2
        _ = (n + 1) * (10 ^ cs.length * 10) := by ring
    · cases h

theorem atoiFast_eq : ∀ (cs : List Nat) (n : Nat),
    atoiFast cs (n : Int) = (digitsAcc cs n).map (fun m => (m : Int)) := by
  intro cs
  induction cs with
  | nil => intro n; simp [atoiFast, digitsAcc]
  | cons c cs ih =>
    intro n
    simp only [atoiFast, digitsAcc]
    split
    · rw [← ih, Nat.cast_add, Nat.cast_mul]; rfl
    · rfl

theorem parseUintLoop_spec : ∀ (cs : List Nat) (n : Nat), n < 2 ^ 64 →
    (∀ m, digitsAcc cs n = some m → m < 2 ^ 64 → parseUintLoop cs n = (m, none)) ∧
    (∀ m, digitsAcc cs n = some m → 2 ^ 64 ≤ m →
      parseUintLoop cs n = (2 ^ 64 - 1, some .ErrRangeKind)) ∧
    (digitsAcc cs n = none →
      parseUintLoop cs n = (0, some .ErrSyntaxKind) ∨
      parseUintLoop cs n = (2 ^ 64 - 1, some .ErrRangeKind)) := by
  intro cs
  induction cs with
  | nil =>
    intro n hn
    refine ⟨?_, ?_, ?_⟩
    · intro m h _; simp [digitsAcc] at h; simp [parseUintLoop, h]
    · intro m h hm; simp [digitsAcc] at h; omega
    · intro h; simp [digitsAcc] at h
  | cons c cs ih =>
    intro n hn
    simp only [digitsAcc, parseUintLoop]
    by_cases hc : 48 ≤ c ∧ c ≤ 57
    · simp only [hc, and_self, if_true]
      by_cases hcut : n ≥ (2 ^ 64 - 1) / 10 + 1
      · simp only [hcut, if_true]
        refine ⟨?_, ?_, ?_⟩
        · intro m h hm
          have := digitsAcc_ge _ _ _ h
          norm_num at hcut
          omega
        · intro _ _ _; trivial
        · intro _; right; trivial
      · simp only [hcut, if_false]
        norm_num at hcut
        by_cases hov : n * 10 + (c - 48) < 2 ^ 64
        · have hmod : (n * 10 + (c - 48)) % 2 ^ 64 = n * 10 + (c - 48) := Nat.mod_eq_of_lt hov
          have hno : ¬ (n * 10 + (c - 48) < n * 10 ∨ n * 10 + (c - 48) > 2 ^ 64 - 1) := by
            omega
          simp only [hmod]
          rw [if_neg hno]
          exact ih _ hov
        · have hyes : ((n * 10 + (c - 48)) % 2 ^ 64 < n * 10 ∨
              (n * 10 + (c - 48)) % 2 ^ 64 > 2 ^ 64 - 1) := by
            left; omega
          simp only [hyes, if_true]
          refine ⟨?_, ?_, ?_⟩
          · intro m h hm
            have := digitsAcc_ge _ _ _ h
            omega
          · intro _ _ _; trivial
          · intro _; right; trivial
    · simp only [hc, if_false]
      refine ⟨?_, ?_, ?_⟩
      · intro m h; cases h
      · intro m h; cases h
      · intro _; left; trivial

theorem ParseUint_spec (s : Bytes) :
    (∀ m, digitsValue s = some m → m < 2 ^ 64 → ParseUint s = (m, none)) ∧
    (∀ m, digitsValue s = some m → 2 ^ 64 ≤ m → ParseUint s = (2 ^ 64 - 1, some .ErrRangeKind)) ∧
    (digitsValue s = none →
      ParseUint s = (0, some .ErrSyntaxKind) ∨ ParseUint s = (2 ^ 64 - 1, some .ErrRangeKind)) := by
  unfold ParseUint digitsValue
  by_cases hs : s = []
  · simp [hs]
  · simp only [hs, if_false]
    exact parseUintLoop_spec s 0 (by norm_num)

theorem toInt64_of_lt (u : Nat) (h : u < 2 ^ 63) : toInt64 u = (u : Int) := by
  unfold toInt64
  have h1 : u % 2 ^ 64 = u := Nat.mod_eq_of_lt (by omega)
  rw [h1, if_pos h]

theorem wrapInt64_of_mem (i : Int) (h1 : -(2 ^ 63) ≤ i) (h2 : i < 2 ^ 63) : wrapInt64 i = i := by
  unfold wrapInt64
  omega

theorem wrapInt64_range (i : Int) : -(2 ^ 63) ≤ wrapInt64 i ∧ wrapInt64 i < 2 ^ 63 := by
  unfold wrapInt64
  omega

theorem ParseInt_spec (s : Bytes) :
    (∀ v, decimalInteger s = some v → -(2 ^ 63) ≤ v → v < 2 ^ 63 → ParseInt s = (v, none)) ∧
    (decimalInteger s = none → (ParseInt s).2 ≠ none) ∧
    (∀ v, decimalInteger s = some v → (v < -(2 ^ 63) ∨ 2 ^ 63 ≤ v) → (ParseInt s).2 ≠ none) := by
  cases s with
  | nil => simp [decimalInteger, ParseInt]
  | cons c cs =>
    by_cases h43 : c = 43
    · subst h43
      obtain ⟨hA, hB, hC⟩ := ParseUint_spec cs
      simp only [decimalInteger, ParseInt, intSize, ↓reduceIte, if_true, if_false, (by decide : ¬ ((45 : Nat) = 43))]
      cases hd : digitsValue cs with
      | none =>
        rcases hC hd with h | h <;> simp [h]
      | some m =>
        by_cases hm : m < 2 ^ 64
        · rw [hA m hd hm]
          by_cases hm2 : m < 2 ^ 63
          · have h1 : ¬ ((9223372036854775808 : Nat) ≤ m) := by omega
            simp [h1, toInt64_of_lt m hm2]
            omega
          · have h1 : (9223372036854775808 : Nat) ≤ m := by omega
            simp [h1]
            try omega
        · rw [hB m hd (by omega)]
          simp
          omega
    · by_cases h45 : c = 45
      · subst h45
        obtain ⟨hA, hB, hC⟩ := ParseUint_spec cs
        simp only [decimalInteger, ParseInt, intSize, ↓reduceIte, if_true, if_false, (by decide : ¬ ((45 : Nat) = 43))]
        cases hd : digitsValue cs with
        | none =>
          rcases hC hd with h | h <;> simp [h]
        | some m =>
          by_cases hm : m < 2 ^ 64
          · rw [hA m hd hm]
            by_cases hm2 : m < 2 ^ 63
            · have h1 : ¬ ((9223372036854775808 : Nat) < m) := by omega
              have h2 : wrapInt64 (-(m : Int)) = -(m : Int) :=
                wrapInt64_of_mem _ (by omega) (by omega)
              simp [h1, toInt64_of_lt m hm2, h2]
              omega
            · by_cases hm3 : m = 2 ^ 63
              · subst hm3
                simp [toInt64, wrapInt64]
              · have h1 : (9223372036854775808 : Nat) < m := by omega
                simp [h1]
                try omega
          · rw [hB m hd (by omega)]
            simp
            omega
      · obtain ⟨hA, hB, hC⟩ := ParseUint_spec (c :: cs)
        simp only [decimalInteger, ParseInt, intSize, h43, h45, ↓reduceIte, if_true, if_false]
        cases hd : digitsValue (c :: cs) with
        | none =>
          rcases hC hd with h | h <;> simp [h]
        | some m =>
          by_cases hm : m < 2 ^ 64
          · rw [hA m hd hm]
            by_cases hm2 : m < 2 ^ 63
            · have h1 : ¬ ((9223372036854775808 : Nat) ≤ m) := by omega
              simp [h1, toInt64_of_lt m hm2]
              omega
            · have h1 : (9223372036854775808 : Nat) ≤ m := by omega
              simp [h1]
              try omega
          · rw [hB m hd (by omega)]
            simp
            omega

theorem digitsAcc_small (cs : List Nat) (m : Nat) (hlen : cs.length ≤ 18)
    (h : digitsAcc cs 0 = some m) : m < 10 ^ 18 := by
  have h1 := digitsAcc_lt cs 0 m h
  have h2 : 10 ^ cs.length ≤ 10 ^ 18 := Nat.pow_le_pow_right (by norm_num) hlen
  omega

theorem Atoi_fast_digits (c : Nat) (s1 : List Nat) :
    (∀ m, digitsAcc s1 0 = some m →
      (match atoiFast s1 0 with
        | none => ((0 : Int), some NumError.ErrSyntaxKind)
        | some n => (if c = 45 then -n else n, none)) =
        ((if c = 45 then -(m : Int) else (m : Int)), none)) ∧
    (digitsAcc s1 0 = none →
      (match atoiFast s1 0 with
        | none => ((0 : Int), some NumError.ErrSyntaxKind)
        | some n => (if c = 45 then -n else n, none)) = (0, some .ErrSyntaxKind)) := by
  have h := atoiFast_eq s1 0
  rw [Nat.cast_zero] at h
  rw [h]
  constructor
  · intro m hm; rw [hm]; rfl
  · intro hm; rw [hm]; rfl

theorem Atoi_spec (s : Bytes) :
    (∀ v, decimalInteger s = some v → -(2 ^ 63) ≤ v → v < 2 ^ 63 → Atoi s = (v, none)) ∧
    (decimalInteger s = none → (Atoi s).2 ≠ none) ∧
    (∀ v, decimalInteger s = some v → (v < -(2 ^ 63) ∨ 2 ^ 63 ≤ v) → (Atoi s).2 ≠ none) := by
  by_cases hlen : 0 < s.length ∧ s.length < 19
  · cases s with
    | nil => simp at hlen
    | cons c cs =>
      have hcs : cs.length ≤ 17 := by simp at hlen; omega
      unfold Atoi
      rw [if_pos hlen]
      by_cases hsign : c = 45 ∨ c = 43
      · simp only [hsign, if_true, true_and]
        by_cases hnil : cs = []
        · subst hnil
          rcases hsign with h | h <;> subst h <;> simp [decimalInteger, digitsValue]
        · have hl : ¬ (cs.length < 1) := by
            cases cs with
            | nil => exact absurd rfl hnil
            | cons _ _ => simp
          rw [if_neg hl]
          obtain ⟨hA, hB⟩ := Atoi_fast_digits c cs
          cases hd : digitsAcc cs 0 with
          | none =>
            rw [hB hd]
            rcases hsign with h | h <;> subst h <;> simp [decimalInteger, digitsValue, hnil, hd]
          | some m =>
            rw [hA m hd]
            have hm := digitsAcc_small cs m (by omega) hd
            rcases hsign with h | h <;> subst h <;>
              simp [decimalInteger, digitsValue, hnil, hd] <;> omega
      · have h45 : ¬ c = 45 := fun h => hsign (Or.inl h)
        have h43 : ¬ c = 43 := fun h => hsign (Or.inr h)
        simp only [hsign, if_false, false_and]
        obtain ⟨hA, hB⟩ := Atoi_fast_digits c (c :: cs)
        cases hd : digitsAcc (c :: cs) 0 with
        | none =>
          rw [hB hd]
          simp [decimalInteger, digitsValue, hd, h43, h45]
        | some m =>
          rw [hA m hd]
          have hm := digitsAcc_small (c :: cs) m (by simp; omega) hd
          simp [decimalInteger, digitsValue, hd, h43, h45]
          omega
  · unfold Atoi
    rw [if_neg hlen]
    exact ParseInt_spec s

/-- The conversion succeeds exactly on the decimal integers of the int range, with their value. -/
theorem Atoi_ok_iff (s : Bytes) (v : Int) :
    Atoi s = (v, none) ↔ decimalInteger s = some v ∧ -(2 ^ 63) ≤ v ∧ v < 2 ^ 63 := by
  obtain ⟨hA, hB, hC⟩ := Atoi_spec s
  constructor
  · intro h
    cases hd : decimalInteger s with
    | none => exact absurd (by rw [h]) (hB hd)
    | some u =>
      by_cases hr : -(2 ^ 63) ≤ u ∧ u < 2 ^ 63
      · have := hA u hd hr.1 hr.2
        rw [h] at this
        have hv : v = u := congrArg Prod.fst this
        subst hv
        exact ⟨rfl, hr⟩
      · exact absurd (by rw [h]) (hC u hd (by omega))
  · rintro ⟨h1, h2, h3⟩
    exact hA v h1 h2 h3

/-! ## Sequencing -/

theorem Step.cons_trace {α : Type} (e : Event) (s : Step α) : (Step.cons e s).trace = e :: s.trace := rfl
theorem Step.cons_out {α : Type} (e : Event) (s : Step α) : (Step.cons e s).out = s.out := rfl

theorem call_bind_apply {ρ β : Type} (ask : Nat → ρ) (ev : ρ → Event) (f : ρ → Prog β) (t : Nat) :
    (call ask ev >>= f) t = Step.cons (ev (ask t)) (f (ask t) (t + 1)) := rfl

theorem emit_bind_apply {β : Type} (e : Event) (f : Unit → Prog β) (t : Nat) :
    (emit e >>= f) t = Step.cons e (f () (t + 1)) := rfl

theorem Fatalln_bind_apply {α β : Type} (msg : String) (f : α → Prog β) (t : Nat) :
    ((Fatalln msg : Prog α) >>= f) t = ⟨[], .exited msg⟩ := rfl

theorem pure_bind_apply {α β : Type} (a : α) (f : α → Prog β) (t : Nat) :
    ((pure a : Prog α) >>= f) t = f a t := rfl

theorem bind_assoc_apply {α β γ : Type} (m : Prog α) (f : α → Prog β) (g : β → Prog γ) (t : Nat) :
    ((m >>= f) >>= g) t = (m >>= fun a => f a >>= g) t := by
  show Prog.bind (Prog.bind m f) g t = Prog.bind m (fun a => Prog.bind (f a) g) t
  unfold Prog.bind
  rcases m t with ⟨es, a | msg⟩
  · simp only
    rcases f a (t + es.length) with ⟨es2, b | msg2⟩
    · simp only [List.length_append, Nat.add_assoc, List.append_assoc]
    · simp only
  · simp only

theorem Fatalln_apply {α : Type} (msg : String) (t : Nat) :
    (Fatalln msg : Prog α) t = ⟨[], .exited msg⟩ := rfl

theorem pure_apply {α : Type} (a : α) (t : Nat) : (pure a : Prog α) t = ⟨[], .returned a⟩ := rfl

theorem emit_apply (e : Event) (t : Nat) : emit e t = Step.cons e ⟨[], .returned ()⟩ := rfl

theorem call_apply {ρ : Type} (ask : Nat → ρ) (ev : ρ → Event) (t : Nat) :
    call ask ev t = Step.cons (ev (ask t)) ⟨[], .returned (ask t)⟩ := rfl

/-! ## The paths of a run -/

theorem Step.cons_mk {α : Type} (e : Event) (l : List Event) (o : Outcome α) :
    Step.cons e ⟨l, o⟩ = ⟨e :: l, o⟩ := rfl

theorem createChannelAndCC_paths (w : World) (t : Nat) :
    ProvisionFailed (createChannelAndCC w t) ∨
    ∃ id tx1 pkg ir tx2, createChannelAndCC w t = ⟨provisionDone id tx1 pkg ir tx2, .returned ()⟩ := by
  simp only [createChannelAndCC, createChannel, createCC, Info, call_bind_apply,
    bind_assoc_apply, emit_bind_apply, Fatalln_bind_apply, Fatalln_apply, emit_apply, Step.cons_mk]
  rcases w.resmgmtNew t orgAdmin ordererOrgName with a1 | e1
  all_goals simp only [call_bind_apply, bind_assoc_apply, emit_bind_apply, Fatalln_bind_apply,
      Fatalln_apply, emit_apply, Step.cons_mk]
  swap
  · simp [ProvisionFailed, provisionDone, evOrdererClient, evMsp, evIdentity, evSaveChannel,
      evTransactionID, evOrgClient, evJoinChannel, evPackage, evInstall, evInstantiate,
      saveChannelRequest, installCCRequest, instantiateCCRequest, and_assoc]
  rcases w.mspNew _ orgName with a2 | e2
  all_goals simp only [call_bind_apply, bind_assoc_apply, emit_bind_apply, Fatalln_bind_apply,
      Fatalln_apply, emit_apply, Step.cons_mk]
  swap
  · simp [ProvisionFailed, provisionDone, evOrdererClient, evMsp, evIdentity, evSaveChannel,
      evTransactionID, evOrgClient, evJoinChannel, evPackage, evInstall, evInstantiate,
      saveChannelRequest, installCCRequest, instantiateCCRequest, and_assoc]
  rcases w.GetSigningIdentity _ orgAdmin with a3 | e3
  all_goals simp only [call_bind_apply, bind_assoc_apply, emit_bind_apply, Fatalln_bind_apply,
      Fatalln_apply, emit_apply, Step.cons_mk]
  swap
  · simp [ProvisionFailed, provisionDone, evOrdererClient, evMsp, evIdentity, evSaveChannel,
      evTransactionID, evOrgClient, evJoinChannel, evPackage, evInstall, evInstantiate,
      saveChannelRequest, installCCRequest, instantiateCCRequest, and_assoc]
  rcases w.SaveChannel _ _ _ _ with a4 | e4
  all_goals simp only [call_bind_apply, bind_assoc_apply, emit_bind_apply, Fatalln_bind_apply,
      Fatalln_apply, emit_apply, Step.cons_mk]
  swap
  · simp [ProvisionFailed, provisionDone, evOrdererClient, evMsp, evIdentity, evSaveChannel,
      evTransactionID, evOrgClient, evJoinChannel, evPackage, evInstall, evInstantiate,
      saveChannelRequest, installCCRequest, instantiateCCRequest, and_assoc]
  rcases w.resmgmtNew _ orgAdmin orgName with a5 | e5
  all_goals simp only [call_bind_apply, bind_assoc_apply, emit_bind_apply, Fatalln_bind_apply,
      Fatalln_apply, emit_apply, Step.cons_mk]
  swap
  · simp [ProvisionFailed, provisionDone, evOrdererClient, evMsp, evIdentity, evSaveChannel,
      evTransactionID, evOrgClient, evJoinChannel, evPackage, evInstall, evInstantiate,
      saveChannelRequest, installCCRequest, instantiateCCRequest, and_assoc]
  rcases w.JoinChannel _ _ _ _ with a6 | e6
  all_goals simp only [call_bind_apply, bind_assoc_apply, emit_bind_apply, Fatalln_bind_apply,
      Fatalln_apply, emit_apply, Step.cons_mk]
  swap
  · simp [ProvisionFailed, provisionDone, evOrdererClient, evMsp, evIdentity, evSaveChannel,
      evTransactionID, evOrgClient, evJoinChannel, evPackage, evInstall, evInstantiate,
      saveChannelRequest, installCCRequest, instantiateCCRequest, and_assoc]
  rcases w.NewCCPackage _ _ _ with a7 | e7
  all_goals simp only [call_bind_apply, bind_assoc_apply, emit_bind_apply, Fatalln_bind_apply,
      Fatalln_apply, emit_apply, Step.cons_mk]
  swap
  · simp [ProvisionFailed, provisionDone, evOrdererClient, evMsp, evIdentity, evSaveChannel,
      evTransactionID, evOrgClient, evJoinChannel, evPackage, evInstall, evInstantiate,
      saveChannelRequest, installCCRequest, instantiateCCRequest, and_assoc]
  rcases w.InstallCC _ _ _ _ with a8 | e8
  all_goals simp only [call_bind_apply, bind_assoc_apply, emit_bind_apply, Fatalln_bind_apply,
      Fatalln_apply, emit_apply, Step.cons_mk]
  swap
  · simp [ProvisionFailed, provisionDone, evOrdererClient, evMsp, evIdentity, evSaveChannel,
      evTransactionID, evOrgClient, evJoinChannel, evPackage, evInstall, evInstantiate,
      saveChannelRequest, installCCRequest, instantiateCCRequest, and_assoc]
  rcases w.InstantiateCC _ _ _ _ _ with a9 | e9
  all_goals simp only [call_bind_apply, bind_assoc_apply, emit_bind_apply, Fatalln_bind_apply,
      Fatalln_apply, emit_apply, Step.cons_mk]
  swap
  · simp [ProvisionFailed, provisionDone, evOrdererClient, evMsp, evIdentity, evSaveChannel,
      evTransactionID, evOrgClient, evJoinChannel, evPackage, evInstall, evInstantiate,
      saveChannelRequest, installCCRequest, instantiateCCRequest, and_assoc]
  simp [ProvisionFailed, provisionDone, evOrdererClient, evMsp, evIdentity, evSaveChannel,
      evTransactionID, evOrgClient, evJoinChannel, evPackage, evInstall, evInstantiate,
      saveChannelRequest, installCCRequest, instantiateCCRequest, and_assoc]

theorem cycleBody_paths (w : World) (t : Nat) :
    CycleFailed (cycleBody w t) ∨
    ∃ v1 reg tx ev v2, Verified v1 v2 ∧
      cycleBody w t = ⟨cycleDone v1 reg tx ev v2, .returned ()⟩ := by
  simp only [cycleBody, queryCC, executeCC, verifyFundsIsMoved, deferring, Info,
    call_bind_apply, bind_assoc_apply, emit_bind_apply, Fatalln_bind_apply,
    pure_bind_apply, Fatalln_apply, emit_apply, pure_apply, Step.cons_mk]
  rcases w.channelNew t _ _ _ with a1 | e1
  all_goals simp only [call_bind_apply, bind_assoc_apply, emit_bind_apply, Fatalln_bind_apply,
      pure_bind_apply, Fatalln_apply, emit_apply, pure_apply, Step.cons_mk]
  swap
  · simp [CycleFailed, cycleDone, evChannelClient, evQuery, evRegister, evExecute, evReceived,
      userClient, timeoutReport, and_assoc]
  rcases w.Query _ _ _ _ with a2 | e2
  all_goals simp only [call_bind_apply, bind_assoc_apply, emit_bind_apply, Fatalln_bind_apply,
      pure_bind_apply, Fatalln_apply, emit_apply, pure_apply, Step.cons_mk]
  swap
  · simp [CycleFailed, cycleDone, evChannelClient, evQuery, evRegister, evExecute, evReceived,
      userClient, timeoutReport, and_assoc]
  rcases w.RegisterChaincodeEvent _ _ _ _ with a3 | e3
  all_goals simp only [call_bind_apply, bind_assoc_apply, emit_bind_apply, Fatalln_bind_apply,
      pure_bind_apply, Fatalln_apply, emit_apply, pure_apply, Step.cons_mk]
  swap
  · simp [CycleFailed, cycleDone, evChannelClient, evQuery, evRegister, evExecute, evReceived,
      userClient, timeoutReport, and_assoc]
  rcases w.Execute _ _ _ _ with a4 | e4
  all_goals simp only [call_bind_apply, bind_assoc_apply, emit_bind_apply, Fatalln_bind_apply,
      pure_bind_apply, Fatalln_apply, emit_apply, pure_apply, Step.cons_mk]
  swap
  · simp [CycleFailed, cycleDone, evChannelClient, evQuery, evRegister, evExecute, evReceived,
      userClient, timeoutReport, and_assoc]
  rcases w.select _ _ _ with _ | ev
  all_goals simp only [call_bind_apply, bind_assoc_apply, emit_bind_apply, Fatalln_bind_apply,
      pure_bind_apply, Fatalln_apply, emit_apply, pure_apply, Step.cons_mk]
  · simp [CycleFailed, cycleDone, evChannelClient, evQuery, evRegister, evExecute, evReceived,
      userClient, timeoutReport, and_assoc]
  rcases w.Query _ _ _ _ with v2 | e6
  all_goals simp only [call_bind_apply, bind_assoc_apply, emit_bind_apply, Fatalln_bind_apply,
      pure_bind_apply, Fatalln_apply, emit_apply, pure_apply, Step.cons_mk]
  swap
  · simp [CycleFailed, cycleDone, evChannelClient, evQuery, evRegister, evExecute, evReceived,
      userClient, timeoutReport, and_assoc]
  rcases hA : Atoi a2 with ⟨V, _ | e7⟩
  all_goals simp only [call_bind_apply, bind_assoc_apply, emit_bind_apply, Fatalln_bind_apply,
      pure_bind_apply, Fatalln_apply, emit_apply, pure_apply, Step.cons_mk]
  swap
  · refine Or.inl ?_
    unfold CycleFailed
    refine Or.inr (Or.inr (Or.inr (Or.inr (Or.inr (Or.inr ⟨a2, a3, a4, ev, v2, _, ?_, rfl⟩)))))
    rintro ⟨V1, W1, h1, -, -⟩
    rw [hA] at h1
    cases h1
  rcases hB : Atoi v2 with ⟨W, _ | e8⟩
  all_goals simp only [call_bind_apply, bind_assoc_apply, emit_bind_apply, Fatalln_bind_apply,
      pure_bind_apply, Fatalln_apply, emit_apply, pure_apply, Step.cons_mk]
  swap
  · refine Or.inl ?_
    unfold CycleFailed
    refine Or.inr (Or.inr (Or.inr (Or.inr (Or.inr (Or.inr ⟨a2, a3, a4, ev, v2, _, ?_, rfl⟩)))))
    rintro ⟨V1, W1, -, h2, -⟩
    rw [hB] at h2
    cases h2
  by_cases hW : wrapInt64 (V + 1) = W
  · simp only [hW, ne_eq, not_true_eq_false, if_false]
    simp only [call_bind_apply, bind_assoc_apply, emit_bind_apply, Fatalln_bind_apply,
      pure_bind_apply, Fatalln_apply, emit_apply, pure_apply, Step.cons_mk]
    exact Or.inr ⟨a2, a3, a4, ev, v2, ⟨V, W, hA, hB, hW⟩, rfl⟩
  · simp only [ne_eq, hW, not_false_eq_true, if_true]
    simp only [call_bind_apply, bind_assoc_apply, emit_bind_apply, Fatalln_bind_apply,
      pure_bind_apply, Fatalln_apply, emit_apply, pure_apply, Step.cons_mk]
    refine Or.inl ?_
    unfold CycleFailed
    refine Or.inr (Or.inr (Or.inr (Or.inr (Or.inr (Or.inr ⟨a2, a3, a4, ev, v2, _, ?_, rfl⟩)))))
    rintro ⟨V1, W1, h1, h2, h3⟩
    rw [hA] at h1
    rw [hB] at h2
    cases h1
    cases h2
    exact hW h3

theorem setupAndRun_unfold (w : World) (doSetup : Bool) (configOpt : String)
    (sdkOpts : List String) :
    setupAndRun w doSetup configOpt sdkOpts = (do
      let r ← call (fun t => w.New t configOpt sdkOpts) (Event.New configOpt sdkOpts)
      match r with
      | .err e => Fatalln ("Failed to create new SDK: " ++ e)
      | .ok _ =>
        deferring (emit .Close) do
          if doSetup then
            createChannelAndCC w
          cycleBody w) := rfl

theorem bind_apply_returned {α β : Type} (m : Prog α) (f : α → Prog β) (t : Nat)
    (es : List Event) (a : α) (h : m t = ⟨es, .returned a⟩) :
    (m >>= f) t = ⟨es ++ (f a (t + es.length)).trace, (f a (t + es.length)).out⟩ := by
  show Prog.bind m f t = _
  unfold Prog.bind
  rw [h]

theorem bind_apply_exited {α β : Type} (m : Prog α) (f : α → Prog β) (t : Nat)
    (es : List Event) (msg : String) (h : m t = ⟨es, .exited msg⟩) :
    (m >>= f) t = ⟨es, .exited msg⟩ := by
  show Prog.bind m f t = _
  unfold Prog.bind
  rw [h]

theorem provisionFailed_exited {s : Step Unit} (h : ProvisionFailed s) :
    ∃ es msg, s = ⟨es, .exited msg⟩ := by
  unfold ProvisionFailed at h
  rcases h with ⟨_, h⟩ | ⟨_, h⟩ | ⟨_, h⟩ | ⟨_, _, h⟩ | ⟨_, _, _, h⟩ | ⟨_, _, _, h⟩ |
    ⟨_, _, _, h⟩ | ⟨_, _, _, _, h⟩ | ⟨_, _, _, _, _, h⟩ <;> exact ⟨_, _, h⟩

theorem cycleFailed_exited {s : Step Unit} (h : CycleFailed s) :
    ∃ es msg, s = ⟨es, .exited msg⟩ := by
  unfold CycleFailed at h
  rcases h with ⟨_, h⟩ | ⟨_, h⟩ | ⟨_, _, h⟩ | ⟨_, _, _, h⟩ | ⟨_, _, _, h⟩ | ⟨_, _, _, _, _, h⟩ |
    ⟨_, _, _, _, _, _, _, h⟩ <;> exact ⟨_, _, h⟩

/-- The part of setupAndRun after the SDK was created, without the deferred Close. -/
theorem afterNew_paths (w : World) (doSetup : Bool) (t : Nat) :
    let m : Prog Unit := do
      if doSetup then
        createChannelAndCC w
      cycleBody w
    (doSetup = true ∧ ProvisionFailed (m t)) ∨
    (∃ pre s, ProvisionPrefix doSetup pre ∧ CycleFailed s ∧ m t = ⟨pre ++ s.trace, s.out⟩) ∨
    (∃ pre v1 reg tx ev v2, ProvisionPrefix doSetup pre ∧ Verified v1 v2 ∧
      m t = ⟨pre ++ cycleDone v1 reg tx ev v2, .returned ()⟩) := by
  intro m
  cases doSetup
  · have hm : m t = cycleBody w t := rfl
    rw [hm]
    rcases cycleBody_paths w t with hf | ⟨v1, reg, tx, ev, v2, hv, hd⟩
    · exact Or.inr (Or.inl ⟨[], _, Or.inl ⟨rfl, rfl⟩, hf, rfl⟩)
    · exact Or.inr (Or.inr ⟨[], v1, reg, tx, ev, v2, Or.inl ⟨rfl, rfl⟩, hv, hd⟩)
  · have hm : m t = (createChannelAndCC w >>= fun _ => cycleBody w) t := rfl
    rw [hm]
    rcases createChannelAndCC_paths w t with hf | ⟨id, tx1, pkg, ir, tx2, hd⟩
    · obtain ⟨es, msg, hs⟩ := (provisionFailed_exited hf)
      rw [bind_apply_exited _ _ _ es msg hs, ← hs]
      exact Or.inl ⟨rfl, hf⟩
    · rw [bind_apply_returned _ _ _ _ _ hd]
      have hp : ProvisionPrefix true (provisionDone id tx1 pkg ir tx2) :=
        Or.inr ⟨rfl, id, tx1, pkg, ir, tx2, rfl⟩
      rcases cycleBody_paths w (t + (provisionDone id tx1 pkg ir tx2).length) with
        hf | ⟨v1, reg, tx, ev, v2, hv, hd2⟩
      · exact Or.inr (Or.inl ⟨_, _, hp, hf, rfl⟩)
      · rw [hd2]
        exact Or.inr (Or.inr ⟨_, v1, reg, tx, ev, v2, hp, hv, rfl⟩)

theorem setupAndRun_paths (w : World) (doSetup : Bool) (cfg : String) (opts : List String)
    (t : Nat) :
    (∃ e, setupAndRun w doSetup cfg opts t =
      ⟨[.New cfg opts (.err e)], .exited ("Failed to create new SDK: " ++ e)⟩) ∨
    (doSetup = true ∧ ∃ s, ProvisionFailed s ∧
      setupAndRun w doSetup cfg opts t = ⟨.New cfg opts (.ok ()) :: s.trace, s.out⟩) ∨
    (∃ pre s, ProvisionPrefix doSetup pre ∧ CycleFailed s ∧
      setupAndRun w doSetup cfg opts t = ⟨.New cfg opts (.ok ()) :: (pre ++ s.trace), s.out⟩) ∨
    (∃ pre v1 reg tx ev v2, ProvisionPrefix doSetup pre ∧ Verified v1 v2 ∧
      setupAndRun w doSetup cfg opts t =
        ⟨.New cfg opts (.ok ()) :: (pre ++ cycleDone v1 reg tx ev v2 ++ [.Close]),
          .returned ()⟩) := by
  rw [setupAndRun_unfold]
  simp only [call_bind_apply]
  rcases w.New t cfg opts with a | e
  · simp only [deferring]
    rcases afterNew_paths w doSetup (t + 1) with ⟨hs, hf⟩ | ⟨pre, s, hp, hf, hm⟩ |
      ⟨pre, v1, reg, tx, ev, v2, hp, hv, hm⟩
    · obtain ⟨es, msg, hs2⟩ := provisionFailed_exited hf
      rw [bind_apply_exited _ _ _ es msg hs2]
      refine Or.inr (Or.inl ⟨hs, _, hf, ?_⟩)
      rw [hs2]
      rfl
    · obtain ⟨es, msg, hs2⟩ := cycleFailed_exited hf
      rw [hs2] at hm
      rw [bind_apply_exited _ _ _ _ msg hm]
      refine Or.inr (Or.inr (Or.inl ⟨pre, s, hp, hf, ?_⟩))
      rw [hs2]
      rfl
    · rw [bind_apply_returned _ _ _ _ _ hm]
      refine Or.inr (Or.inr (Or.inr ⟨pre, v1, reg, tx, ev, v2, hp, hv, ?_⟩))
      rfl
  · exact Or.inl ⟨e, rfl⟩

/-! ## The move-funds check -/

theorem outcome_exited_of_ne {o : Outcome Unit} (h : o ≠ .returned ()) :
    ∃ msg, o = .exited msg := by
  cases o with
  | returned a => exact absurd rfl h
  | exited msg => exact ⟨msg, rfl⟩

theorem verifyFundsIsMoved_out (w : World) (client : ChannelClient) (t : Nat)
    (value newValue : Bytes)
    (hq : w.Query t client { ChaincodeID := ccID, Fcn := "invoke", Args := ccQueryArgs }
      [ChannelOption.WithRetry .DefaultChannelOpts] = .ok newValue) :
    (verifyFundsIsMoved w client value t).out = .returned () ↔ Verified value newValue := by
  simp only [verifyFundsIsMoved, queryCC, call_bind_apply, bind_assoc_apply, hq,
    pure_bind_apply, Step.cons_out]
  rcases hA : Atoi value with ⟨V, _ | e1⟩
  · rcases hB : Atoi newValue with ⟨W, _ | e2⟩
    · by_cases hW : wrapInt64 (V + 1) = W
      · have hv : Verified value newValue := ⟨V, W, hA, hB, hW⟩
        simp [hW, pure_apply, hv]
      · have hv : ¬ Verified value newValue := by
          rintro ⟨V1, W1, h1, h2, h3⟩
          rw [hA] at h1
          rw [hB] at h2
          cases h1
          cases h2
          exact absurd h3 hW
        simp [hW, Fatalln_apply, hv]
    · have hv : ¬ Verified value newValue := by
        rintro ⟨V1, W1, -, h2, -⟩
        rw [hB] at h2
        cases h2
      simp [Fatalln_apply, hv]
  · have hv : ¬ Verified value newValue := by
      rintro ⟨V1, W1, h1, -, -⟩
      rw [hA] at h1
      cases h1
    simp [Fatalln_apply, hv]

/-- Away from the largest int, the check passes exactly on consecutive decimal integers
of the int range. -/
theorem Verified_iff (value newValue : Bytes)
    (hmax : decimalInteger value ≠ some (2 ^ 63 - 1)) :
    Verified value newValue ↔
      ∃ V W : Int, decimalInteger value = some V ∧ decimalInteger newValue = some W ∧
        -(2 ^ 63) ≤ V ∧ V < 2 ^ 63 ∧ -(2 ^ 63) ≤ W ∧ W < 2 ^ 63 ∧ W = V + 1 := by
  unfold Verified
  constructor
  · rintro ⟨V, W, h1, h2, h3⟩
    rw [Atoi_ok_iff] at h1 h2
    obtain ⟨d1, l1, u1⟩ := h1
    obtain ⟨d2, l2, u2⟩ := h2
    have hV : V ≠ 2 ^ 63 - 1 := by
      intro h
      rw [h] at d1
      exact hmax d1
    have hw : wrapInt64 (V + 1) = V + 1 := wrapInt64_of_mem _ (by omega) (by omega)
    rw [hw] at h3
    exact ⟨V, W, d1, d2, l1, u1, l2, u2, h3.symm⟩
  · rintro ⟨V, W, d1, d2, l1, u1, l2, u2, h3⟩
    refine ⟨V, W, (Atoi_ok_iff _ _).2 ⟨d1, l1, u1⟩, (Atoi_ok_iff _ _).2 ⟨d2, l2, u2⟩, ?_⟩
    rw [h3]
    exact wrapInt64_of_mem _ (by omega) (by omega)

/-- At the largest int the 64-bit addition wraps: the check passes exactly on the smallest int. -/
theorem Verified_at_max (value newValue : Bytes)
    (hmax : decimalInteger value = some (2 ^ 63 - 1)) :
    Verified value newValue ↔ decimalInteger newValue = some (-(2 ^ 63)) := by
  unfold Verified
  constructor
  · rintro ⟨V, W, h1, h2, h3⟩
    rw [Atoi_ok_iff] at h1 h2
    obtain ⟨d1, -, -⟩ := h1
    obtain ⟨d2, -, -⟩ := h2
    rw [hmax] at d1
    cases d1
    have : wrapInt64 (2 ^ 63 - 1 + 1) = -(2 ^ 63) := by unfold wrapInt64; norm_num
    rw [this] at h3
    rw [h3]
    exact d2
  · intro d2
    refine ⟨2 ^ 63 - 1, -(2 ^ 63), (Atoi_ok_iff _ _).2 ⟨hmax, by norm_num, by norm_num⟩,
      (Atoi_ok_iff _ _).2 ⟨d2, by norm_num, by norm_num⟩, ?_⟩
    unfold wrapInt64
    norm_num

/-- C1, as amended: when the final query returns the payload post and the baseline pre
is not the largest int, verifyFundsIsMoved returns (no fatal exit) exactly when pre and
post are decimal integers V and W, both within the 64-bit int range, with W = V + 1;
in every other case the run ends with the fatal exit. -/
theorem verifyFundsIsMoved_returns_iff (w : World) (client : ChannelClient) (t : Nat)
    (pre post : Bytes)
    (hq : w.Query t client { ChaincodeID := ccID, Fcn := "invoke", Args := ccQueryArgs }
      [ChannelOption.WithRetry .DefaultChannelOpts] = .ok post)
    (hmax : decimalInteger pre ≠ some (2 ^ 63 - 1)) :
    ((verifyFundsIsMoved w client pre t).out = .returned () ↔
      ∃ V W : Int, decimalInteger pre = some V ∧ decimalInteger post = some W ∧
        -(2 ^ 63) ≤ V ∧ V < 2 ^ 63 ∧ -(2 ^ 63) ≤ W ∧ W < 2 ^ 63 ∧ W = V + 1) ∧
    ((verifyFundsIsMoved w client pre t).out ≠ .returned () →
      ∃ msg, (verifyFundsIsMoved w client pre t).out = .exited msg) := by
  exact ⟨(verifyFundsIsMoved_out w client t pre post hq).trans (Verified_iff pre post hmax),
    outcome_exited_of_ne⟩

theorem verifyFundsIsMoved_returns_iff_witness :
    (plainWorld (fun _ => .ok (bytesOf "201")) none).Query 0 userClient
        { ChaincodeID := ccID, Fcn := "invoke", Args := ccQueryArgs }
        [ChannelOption.WithRetry .DefaultChannelOpts] = .ok (bytesOf "201") ∧
    decimalInteger (bytesOf "200") ≠ some (2 ^ 63 - 1) ∧
    (((verifyFundsIsMoved (plainWorld (fun _ => .ok (bytesOf "201")) none) userClient
        (bytesOf "200") 0).out = .returned () ↔
      ∃ V W : Int, decimalInteger (bytesOf "200") = some V ∧
        decimalInteger (bytesOf "201") = some W ∧
        -(2 ^ 63) ≤ V ∧ V < 2 ^ 63 ∧ -(2 ^ 63) ≤ W ∧ W < 2 ^ 63 ∧ W = V + 1) ∧
    ((verifyFundsIsMoved (plainWorld (fun _ => .ok (bytesOf "201")) none) userClient
        (bytesOf "200") 0).out ≠ .returned () →
      ∃ msg, (verifyFundsIsMoved (plainWorld (fun _ => .ok (bytesOf "201")) none) userClient
        (bytesOf "200") 0).out = .exited msg)) :=
  ⟨rfl, by decide,
    verifyFundsIsMoved_returns_iff (plainWorld (fun _ => .ok (bytesOf "201")) none) userClient 0
      (bytesOf "200") (bytesOf "201") rfl (by decide)⟩

/-- C1, as stated, fails at two inputs.  With pre the largest int and post the smallest
int the run returns although post is not pre + 1; with pre = 2^63 and post = 2^63 + 1,
consecutive decimal integers, the run ends with the fatal exit. -/
theorem verifyFundsIsMoved_claim_counterexample :
    ¬ ((verifyFundsIsMoved (plainWorld (fun _ => .ok (bytesOf "-9223372036854775808")) none)
          userClient (bytesOf "9223372036854775807") 0).out = .returned () ↔
        ∃ V W : Int, decimalInteger (bytesOf "9223372036854775807") = some V ∧
          decimalInteger (bytesOf "-9223372036854775808") = some W ∧ W = V + 1) ∧
    ¬ ((verifyFundsIsMoved (plainWorld (fun _ => .ok (bytesOf "9223372036854775809")) none)
          userClient (bytesOf "9223372036854775808") 0).out = .returned () ↔
        ∃ V W : Int, decimalInteger (bytesOf "9223372036854775808") = some V ∧
          decimalInteger (bytesOf "9223372036854775809") = some W ∧ W = V + 1) := by
  constructor
  · intro h
    have hret : (verifyFundsIsMoved (plainWorld (fun _ => .ok (bytesOf "-9223372036854775808")) none)
          userClient (bytesOf "9223372036854775807") 0).out = .returned () := by decide
    obtain ⟨V, W, h1, h2, h3⟩ := h.1 hret
    have e1 : decimalInteger (bytesOf "9223372036854775807") = some 9223372036854775807 := by
      decide
    have e2 : decimalInteger (bytesOf "-9223372036854775808") = some (-9223372036854775808) := by
      decide
    rw [e1] at h1
    rw [e2] at h2
    cases h1
    cases h2
    omega
  · intro h
    have hex : (verifyFundsIsMoved (plainWorld (fun _ => .ok (bytesOf "9223372036854775809")) none)
          userClient (bytesOf "9223372036854775808") 0).out ≠ .returned () := by decide
    exact hex (h.2 ⟨9223372036854775808, 9223372036854775809, by decide, by decide, by norm_num⟩)

/-! ## Runs of setupAndRun -/

theorem setupAndRun_abortCheck (w : World) (doSetup : Bool) (cfg : String)
    (opts : List String) (t : Nat) : abortCheck (setupAndRun w doSetup cfg opts t) = true := by
  rcases setupAndRun_paths w doSetup cfg opts t with ⟨e, h⟩ | ⟨-, s, hf, h⟩ |
    ⟨pre, s, hp, hf, h⟩ | ⟨pre, v1, reg, tx, ev, v2, hp, hv, h⟩
  · rw [h]
    rfl
  · rw [h]
    unfold ProvisionFailed at hf
    rcases hf with ⟨_, rfl⟩ | ⟨_, rfl⟩ | ⟨_, rfl⟩ | ⟨_, _, rfl⟩ | ⟨_, _, _, rfl⟩ | ⟨_, _, _, rfl⟩ |
      ⟨_, _, _, rfl⟩ | ⟨_, _, _, _, rfl⟩ | ⟨_, _, _, _, _, rfl⟩ <;> rfl
  · rw [h]
    unfold CycleFailed at hf
    rcases hp with ⟨-, rfl⟩ | ⟨-, _, _, _, _, _, rfl⟩ <;>
    rcases hf with ⟨_, rfl⟩ | ⟨_, rfl⟩ | ⟨_, _, rfl⟩ | ⟨_, _, _, rfl⟩ | ⟨_, _, _, rfl⟩ |
      ⟨_, _, _, _, _, rfl⟩ | ⟨_, _, _, _, _, _, -, rfl⟩ <;> rfl
  · rw [h]
    rcases hp with ⟨-, rfl⟩ | ⟨-, _, _, _, _, _, rfl⟩ <;> rfl

theorem not_exists_of_any_false {l : List Event} {p : Event → Bool} (h : l.any p = false) :
    ¬ ∃ x ∈ l, p x = true := by
  rintro ⟨x, hx, hp⟩
  rw [List.any_eq_false] at h
  exact h x hx hp

theorem all_false_of_all {l : List Event} {p : Event → Bool}
    (h : l.all (fun x => !p x) = true) : ∀ x ∈ l, p x = false := by
  intro x hx
  rw [List.all_eq_true] at h
  simpa using h x hx

theorem exited_ne_returned (msg : String) : (Outcome.exited msg : Outcome Unit) ≠ .returned () :=
  fun h => by cases h

theorem timeoutReport_ne (e : Err) :
    "Did NOT receive CC event for eventId(mash([a-zA-Z]+))\n" ≠ "Failed to move funds: " ++ e := by
  intro h
  have h2 := congrArg (fun s => s.data.head?) h
  simp at h2

theorem executeCC_failure_report (w : World) (client : ChannelClient) (t : Nat) (e : Err)
    (h : w.Execute t client { ChaincodeID := ccID, Fcn := "invoke", Args := ccTxArgs }
      [ChannelOption.WithRetry .DefaultChannelOpts] = .err e) :
    (executeCC w client t).out = .exited ("Failed to move funds: " ++ e) := by
  simp only [executeCC, call_bind_apply, h, Step.cons_out, Fatalln_apply]

/-- C2: in every run of setupAndRun in which an execute call succeeded and the wait
ended with the 20-second timer resolving before an event was delivered, the run ends
with the fatal exit reporting the missing event; the wait is the last call of the run,
so the baseline query is the only query issued (no final query, no verification), no
deferred call runs and the run does not return; the report differs from the report
executeCC produces when execute itself fails. -/
theorem setupAndRun_timeout (w : World) (doSetup : Bool) (cfg : String) (opts : List String)
    (t : Nat)
    (_hexec : ∃ x ∈ (setupAndRun w doSetup cfg opts t).trace,
      x.isExecute = true ∧ x.failed = false)
    (htimer : ∃ x ∈ (setupAndRun w doSetup cfg opts t).trace, x.isTimeout = true) :
    (setupAndRun w doSetup cfg opts t).out =
      .exited "Did NOT receive CC event for eventId(mash([a-zA-Z]+))\n" ∧
    ((setupAndRun w doSetup cfg opts t).trace.filter Event.isQuery).length = 1 ∧
    (∃ reg, (setupAndRun w doSetup cfg opts t).trace.getLast? = some (.select reg 20 none)) ∧
    (∀ x ∈ (setupAndRun w doSetup cfg opts t).trace, x.isDeferred = false) ∧
    (setupAndRun w doSetup cfg opts t).out ≠ .returned () ∧
    (∀ (w1 : World) (client : ChannelClient) (t1 : Nat) (e : Err),
      w1.Execute t1 client { ChaincodeID := ccID, Fcn := "invoke", Args := ccTxArgs }
        [ChannelOption.WithRetry .DefaultChannelOpts] = .err e →
      (executeCC w1 client t1).out = .exited ("Failed to move funds: " ++ e) ∧
      "Did NOT receive CC event for eventId(mash([a-zA-Z]+))\n" ≠
        "Failed to move funds: " ++ e) := by
  have hlast : ∀ (w1 : World) (client : ChannelClient) (t1 : Nat) (e : Err),
      w1.Execute t1 client { ChaincodeID := ccID, Fcn := "invoke", Args := ccTxArgs }
        [ChannelOption.WithRetry .DefaultChannelOpts] = .err e →
      (executeCC w1 client t1).out = .exited ("Failed to move funds: " ++ e) ∧
      "Did NOT receive CC event for eventId(mash([a-zA-Z]+))\n" ≠
        "Failed to move funds: " ++ e :=
    fun w1 client t1 e h => ⟨executeCC_failure_report w1 client t1 e h, timeoutReport_ne e⟩
  clear _hexec
  rcases setupAndRun_paths w doSetup cfg opts t with ⟨e, h⟩ | ⟨-, s, hf, h⟩ |
    ⟨pre, s, hp, hf, h⟩ | ⟨pre, v1, reg, tx, ev, v2, hp, hv, h⟩
  · rw [h] at htimer
    exact absurd htimer (not_exists_of_any_false rfl)
  · rw [h] at htimer
    unfold ProvisionFailed at hf
    rcases hf with ⟨_, rfl⟩ | ⟨_, rfl⟩ | ⟨_, rfl⟩ | ⟨_, _, rfl⟩ | ⟨_, _, _, rfl⟩ | ⟨_, _, _, rfl⟩ |
      ⟨_, _, _, rfl⟩ | ⟨_, _, _, _, rfl⟩ | ⟨_, _, _, _, _, rfl⟩ <;>
    exact absurd htimer (not_exists_of_any_false rfl)
  · rw [h] at htimer ⊢
    unfold CycleFailed at hf
    rcases hp with ⟨-, rfl⟩ | ⟨-, _, _, _, _, _, rfl⟩ <;>
    rcases hf with ⟨_, rfl⟩ | ⟨_, rfl⟩ | ⟨_, _, rfl⟩ | ⟨_, _, _, rfl⟩ | ⟨_, _, _, rfl⟩ |
      ⟨_, _, _, _, _, rfl⟩ | ⟨_, _, _, _, _, _, -, rfl⟩ <;>
    first
    | exact absurd htimer (not_exists_of_any_false rfl)
    | exact ⟨rfl, rfl, ⟨_, rfl⟩, all_false_of_all rfl, exited_ne_returned _, hlast⟩
  · rw [h] at htimer
    rcases hp with ⟨-, rfl⟩ | ⟨-, _, _, _, _, _, rfl⟩ <;>
    exact absurd htimer (not_exists_of_any_false rfl)

theorem setupAndRun_timeout_witness :
    (∃ x ∈ (setupAndRun (plainWorld (fun _ => .ok (bytesOf "200")) none) false
        "./config/config.yaml" [] 0).trace, x.isExecute = true ∧ x.failed = false) ∧
    (∃ x ∈ (setupAndRun (plainWorld (fun _ => .ok (bytesOf "200")) none) false
        "./config/config.yaml" [] 0).trace, x.isTimeout = true) ∧
    (setupAndRun (plainWorld (fun _ => .ok (bytesOf "200")) none) false
        "./config/config.yaml" [] 0).out =
      .exited "Did NOT receive CC event for eventId(mash([a-zA-Z]+))\n" ∧
    ((setupAndRun (plainWorld (fun _ => .ok (bytesOf "200")) none) false
        "./config/config.yaml" [] 0).trace.filter Event.isQuery).length = 1 :=
  have h := setupAndRun_timeout (plainWorld (fun _ => .ok (bytesOf "200")) none) false
    "./config/config.yaml" [] 0 (by decide) (by decide)
  ⟨by decide, by decide, h.1, h.2.1⟩

theorem exists_of_any_true {l : List Event} {p : Event → Bool} (h : l.any p = true) :
    ∃ x ∈ l, p x = true := by
  rw [List.any_eq_true] at h
  exact h

theorem exited_of_failed_path {s : Step Unit} (h : ∃ es msg, s = ⟨es, .exited msg⟩) :
    s.out ≠ .returned () := by
  obtain ⟨es, msg, rfl⟩ := h
  exact exited_ne_returned msg

/-- C6: a run of setupAndRun that returns (no fatal exit) issued, after the calls that
precede the cycle (none of them on the channel client), exactly these calls in this
order: creation of the channel client, the baseline query, the event registration, the
execute, the wait that received an event, the log of that event, the final query, and
then the deferred unregistration and Close; the check that passed compared the payload
of the first query as the value before with the payload of the query issued after the
event as the value after. -/
theorem setupAndRun_returned_order (w : World) (doSetup : Bool) (cfg : String)
    (opts : List String) (t : Nat)
    (h : (setupAndRun w doSetup cfg opts t).out = .returned ()) :
    ∃ pre v1 reg tx ev v2,
      (setupAndRun w doSetup cfg opts t).trace =
        .New cfg opts (.ok ()) :: (pre ++
          [evChannelClient (.ok ()), evQuery userClient (.ok v1), evRegister (.ok reg),
            evExecute userClient (.ok tx), .select reg 20 (some ev), evReceived ev,
            evQuery userClient (.ok v2), .UnregisterChaincodeEvent userClient reg, .Close]) ∧
      (∀ x ∈ pre, x.onChannelClient = false) ∧
      ∃ V W : Int, Atoi v1 = (V, none) ∧ Atoi v2 = (W, none) ∧ wrapInt64 (V + 1) = W := by
  rcases setupAndRun_paths w doSetup cfg opts t with ⟨e, h1⟩ | ⟨-, s, hf, h1⟩ |
    ⟨pre, s, hp, hf, h1⟩ | ⟨pre, v1, reg, tx, ev, v2, hp, hv, h1⟩
  · rw [h1] at h
    cases h
  · rw [h1] at h
    exact absurd h (@exited_of_failed_path s (provisionFailed_exited hf))
  · rw [h1] at h
    exact absurd h (@exited_of_failed_path s (cycleFailed_exited hf))
  · refine ⟨pre, v1, reg, tx, ev, v2, ?_, ?_, hv⟩
    · rw [h1]
      simp only [cycleDone, List.append_assoc, List.cons_append, List.nil_append]
    · rcases hp with ⟨-, rfl⟩ | ⟨-, _, _, _, _, _, rfl⟩
      · exact all_false_of_all rfl
      · exact all_false_of_all rfl

theorem setupAndRun_returned_order_witness :
    (setupAndRun (plainWorld (ledger 2 (bytesOf "200") (bytesOf "201")) (some "ev")) false
        "./config/config.yaml" [] 0).out = .returned () ∧
    ∃ pre v1 reg tx ev v2,
      (setupAndRun (plainWorld (ledger 2 (bytesOf "200") (bytesOf "201")) (some "ev")) false
          "./config/config.yaml" [] 0).trace =
        .New "./config/config.yaml" [] (.ok ()) :: (pre ++
          [evChannelClient (.ok ()), evQuery userClient (.ok v1), evRegister (.ok reg),
            evExecute userClient (.ok tx), .select reg 20 (some ev), evReceived ev,
            evQuery userClient (.ok v2), .UnregisterChaincodeEvent userClient reg, .Close]) ∧
      (∀ x ∈ pre, x.onChannelClient = false) ∧
      ∃ V W : Int, Atoi v1 = (V, none) ∧ Atoi v2 = (W, none) ∧ wrapInt64 (V + 1) = W :=
  ⟨by decide,
    setupAndRun_returned_order (plainWorld (ledger 2 (bytesOf "200") (bytesOf "201")) (some "ev"))
      false "./config/config.yaml" [] 0 (by decide)⟩

/-! ## The setup flag -/

theorem setupAndRun_setup_iff (w : World) (doSetup : Bool) (cfg : String)
    (opts : List String) (t : Nat) :
    (∃ x ∈ (setupAndRun w doSetup cfg opts t).trace, x.inSetup = true) ↔
      (doSetup = true ∧
        (setupAndRun w doSetup cfg opts t).trace.head? = some (.New cfg opts (.ok ()))) := by
  rcases setupAndRun_paths w doSetup cfg opts t with ⟨e, h⟩ | ⟨hd, s, hf, h⟩ |
    ⟨pre, s, hp, hf, h⟩ | ⟨pre, v1, reg, tx, ev, v2, hp, hv, h⟩
  · rw [h]
    constructor
    · intro h1
      exact absurd h1 (not_exists_of_any_false rfl)
    · rintro ⟨-, h2⟩
      simp at h2
  · rw [h]
    subst hd
    unfold ProvisionFailed at hf
    rcases hf with ⟨_, rfl⟩ | ⟨_, rfl⟩ | ⟨_, rfl⟩ | ⟨_, _, rfl⟩ | ⟨_, _, _, rfl⟩ | ⟨_, _, _, rfl⟩ |
      ⟨_, _, _, rfl⟩ | ⟨_, _, _, _, rfl⟩ | ⟨_, _, _, _, _, rfl⟩ <;>
    exact ⟨fun _ => ⟨rfl, rfl⟩, fun _ => exists_of_any_true rfl⟩
  · rw [h]
    rcases hp with ⟨rfl, rfl⟩ | ⟨rfl, _, _, _, _, _, rfl⟩
    · unfold CycleFailed at hf
      rcases hf with ⟨_, rfl⟩ | ⟨_, rfl⟩ | ⟨_, _, rfl⟩ | ⟨_, _, _, rfl⟩ | ⟨_, _, _, rfl⟩ |
        ⟨_, _, _, _, _, rfl⟩ | ⟨_, _, _, _, _, _, -, rfl⟩ <;>
      exact ⟨fun h1 => absurd h1 (not_exists_of_any_false rfl), fun h2 => by cases h2.1⟩
    · exact ⟨fun _ => ⟨rfl, rfl⟩, fun _ => exists_of_any_true rfl⟩
  · rw [h]
    rcases hp with ⟨rfl, rfl⟩ | ⟨rfl, _, _, _, _, _, rfl⟩
    · exact ⟨fun h1 => absurd h1 (not_exists_of_any_false rfl), fun h2 => by cases h2.1⟩
    · exact ⟨fun _ => ⟨rfl, rfl⟩, fun _ => exists_of_any_true rfl⟩

theorem setupAndRun_no_setup (w : World) (cfg : String) (opts : List String) (t : Nat) :
    ∀ x ∈ (setupAndRun w false cfg opts t).trace, x.inSetup = false := by
  rcases setupAndRun_paths w false cfg opts t with ⟨e, h⟩ | ⟨hd, s, hf, h⟩ |
    ⟨pre, s, hp, hf, h⟩ | ⟨pre, v1, reg, tx, ev, v2, hp, hv, h⟩
  · rw [h]
    exact all_false_of_all rfl
  · cases hd
  · rw [h]
    rcases hp with ⟨-, rfl⟩ | ⟨hd, -⟩
    · unfold CycleFailed at hf
      rcases hf with ⟨_, rfl⟩ | ⟨_, rfl⟩ | ⟨_, _, rfl⟩ | ⟨_, _, _, rfl⟩ | ⟨_, _, _, rfl⟩ |
        ⟨_, _, _, _, _, rfl⟩ | ⟨_, _, _, _, _, _, -, rfl⟩ <;>
      exact all_false_of_all rfl
    · cases hd
  · rw [h]
    rcases hp with ⟨-, rfl⟩ | ⟨hd, -⟩
    · exact all_false_of_all rfl
    · cases hd

/-- Every run started through RunWithoutSetup that gets past the creation of the SDK
issues the first call of createChannelAndCC. -/
theorem RunWithoutSetup_enters_setup (w : World) (t : Nat)
    (h : (RunWithoutSetup w t).trace.head? = some (.New "./config/config.yaml" [] (.ok ()))) :
    ∃ x ∈ (RunWithoutSetup w t).trace, x.inSetup = true :=
  (setupAndRun_setup_iff w true "./config/config.yaml" [] t).2 ⟨rfl, h⟩

/-- No run started through Run issues a call of createChannelAndCC. -/
theorem Run_skips_setup (w : World) (t : Nat) :
    ∀ x ∈ (Run w t).trace, x.inSetup = false :=
  setupAndRun_no_setup w "./config/config.yaml" [] t

/-- C8, the code at a world in which every call succeeds: the run started through
RunWithoutSetup issues SaveChannel, JoinChannel, InstallCC and InstantiateCC, and the
run started through Run issues none of them. -/
theorem RunWithoutSetup_issues_provisioning :
    (RunWithoutSetup (plainWorld (ledger 13 (bytesOf "200") (bytesOf "201")) (some "ev"))
        0).trace.filter Event.isProvisioning =
      [evSaveChannel ⟨"Admin", "ordererorg"⟩ "admin-id" (.ok "tx-save"),
        evJoinChannel (.ok ()),
        evInstall ⟨"Admin", "org1"⟩ "0" "pkg" (.ok "installed"),
        evInstantiate ⟨"Admin", "org1"⟩ (.ok "tx-inst")] ∧
    (RunWithoutSetup (plainWorld (ledger 13 (bytesOf "200") (bytesOf "201")) (some "ev"))
        0).out = .returned () ∧
    (Run (plainWorld (ledger 2 (bytesOf "200") (bytesOf "201")) (some "ev"))
        0).trace.filter Event.isProvisioning = [] := by
  decide

/-! ## The deferred unregistration -/

/-- C3, the code at a world in which every call succeeds and no event is delivered
within the 20 seconds: the registration succeeded, the run ends with the fatal exit, and
UnregisterChaincodeEvent is not called. -/
theorem unregister_skipped_at_timeout :
    evRegister (.ok 7) ∈
      (setupAndRun (plainWorld (fun _ => .ok (bytesOf "200")) none) false
        "./config/config.yaml" [] 0).trace ∧
    (setupAndRun (plainWorld (fun _ => .ok (bytesOf "200")) none) false
        "./config/config.yaml" [] 0).out =
      .exited "Did NOT receive CC event for eventId(mash([a-zA-Z]+))\n" ∧
    (setupAndRun (plainWorld (fun _ => .ok (bytesOf "200")) none) false
        "./config/config.yaml" [] 0).trace.filter Event.isUnregister = [] := by
  decide

theorem setupAndRun_unregisterCheck (w : World) (doSetup : Bool) (cfg : String)
    (opts : List String) (t : Nat) :
    unregisterCheck (setupAndRun w doSetup cfg opts t) = true := by
  rcases setupAndRun_paths w doSetup cfg opts t with ⟨e, h⟩ | ⟨-, s, hf, h⟩ |
    ⟨pre, s, hp, hf, h⟩ | ⟨pre, v1, reg, tx, ev, v2, hp, hv, h⟩
  · rw [h]
    rfl
  · rw [h]
    unfold ProvisionFailed at hf
    rcases hf with ⟨_, rfl⟩ | ⟨_, rfl⟩ | ⟨_, rfl⟩ | ⟨_, _, rfl⟩ | ⟨_, _, _, rfl⟩ | ⟨_, _, _, rfl⟩ |
      ⟨_, _, _, rfl⟩ | ⟨_, _, _, _, rfl⟩ | ⟨_, _, _, _, _, rfl⟩ <;> rfl
  · rw [h]
    unfold CycleFailed at hf
    rcases hp with ⟨-, rfl⟩ | ⟨-, _, _, _, _, _, rfl⟩ <;>
    rcases hf with ⟨_, rfl⟩ | ⟨_, rfl⟩ | ⟨_, _, rfl⟩ | ⟨_, _, _, rfl⟩ | ⟨_, _, _, rfl⟩ |
      ⟨_, _, _, _, _, rfl⟩ | ⟨_, _, _, _, _, _, -, rfl⟩ <;> rfl
  · rw [h]
    rcases hp with ⟨-, rfl⟩ | ⟨-, _, _, _, _, _, rfl⟩ <;> rfl

/-- In every run of setupAndRun the registration is released exactly when the run
returns: a run that returns called UnregisterChaincodeEvent once, a run that ends with
the fatal exit never called it. -/
theorem unregister_only_on_return (w : World) (doSetup : Bool) (cfg : String)
    (opts : List String) (t : Nat) :
    ((setupAndRun w doSetup cfg opts t).out = .returned () →
      ((setupAndRun w doSetup cfg opts t).trace.filter Event.isUnregister).length = 1) ∧
    ((∃ msg, (setupAndRun w doSetup cfg opts t).out = .exited msg) →
      ((setupAndRun w doSetup cfg opts t).trace.filter Event.isUnregister).length = 0) := by
  have h := setupAndRun_unregisterCheck w doSetup cfg opts t
  generalize setupAndRun w doSetup cfg opts t = s at h ⊢
  unfold unregisterCheck at h
  constructor
  · intro hr
    rw [hr] at h
    simpa [Outcome.isExited] using h
  · rintro ⟨msg, hm⟩
    rw [hm] at h
    simpa [Outcome.isExited] using h

/-! ## Provisioning and upgrade -/

/-- C9: in every execution of createChannelAndCC the provisioning calls issued are a
beginning of SaveChannel, JoinChannel, InstallCC, InstantiateCC, in that order, each
issued only after the one before it succeeded; SaveChannel creates channel "orgchannel",
JoinChannel and InstantiateCC target "orgchannel", InstallCC installs chaincode
"exampleCC" version "0" and InstantiateCC instantiates "exampleCC" version "0". -/
theorem createChannelAndCC_call_order (w : World) (t : Nat) :
    (createChannelAndCC w t).trace.filter Event.isProvisioning = [] ∨
    (∃ id r, (createChannelAndCC w t).trace.filter Event.isProvisioning =
      [.SaveChannel ⟨"Admin", "ordererorg"⟩
        { ChannelID := "orgchannel", ChannelConfigPath := "channel/orgchannel.tx",
          SigningIdentities := [id] }
        [.WithRetry .DefaultResMgmtOpts, .WithOrdererEndpoint "orderer.example.com"] r]) ∨
    (∃ id tx1 r, (createChannelAndCC w t).trace.filter Event.isProvisioning =
      [.SaveChannel ⟨"Admin", "ordererorg"⟩
        { ChannelID := "orgchannel", ChannelConfigPath := "channel/orgchannel.tx",
          SigningIdentities := [id] }
        [.WithRetry .DefaultResMgmtOpts, .WithOrdererEndpoint "orderer.example.com"] (.ok tx1),
       .JoinChannel ⟨"Admin", "org1"⟩ "orgchannel"
        [.WithRetry .DefaultResMgmtOpts, .WithOrdererEndpoint "orderer.example.com"] r]) ∨
    (∃ id tx1 pkg r, (createChannelAndCC w t).trace.filter Event.isProvisioning =
      [.SaveChannel ⟨"Admin", "ordererorg"⟩
        { ChannelID := "orgchannel", ChannelConfigPath := "channel/orgchannel.tx",
          SigningIdentities := [id] }
        [.WithRetry .DefaultResMgmtOpts, .WithOrdererEndpoint "orderer.example.com"] (.ok tx1),
       .JoinChannel ⟨"Admin", "org1"⟩ "orgchannel"
        [.WithRetry .DefaultResMgmtOpts, .WithOrdererEndpoint "orderer.example.com"] (.ok ()),
       .InstallCC ⟨"Admin", "org1"⟩
        { Name := "exampleCC", Path := "example_cc", Version := "0", Package := pkg }
        [.WithRetry .DefaultResMgmtOpts] r]) ∨
    (∃ id tx1 pkg ir r, (createChannelAndCC w t).trace.filter Event.isProvisioning =
      [.SaveChannel ⟨"Admin", "ordererorg"⟩
        { ChannelID := "orgchannel", ChannelConfigPath := "channel/orgchannel.tx",
          SigningIdentities := [id] }
        [.WithRetry .DefaultResMgmtOpts, .WithOrdererEndpoint "orderer.example.com"] (.ok tx1),
       .JoinChannel ⟨"Admin", "org1"⟩ "orgchannel"
        [.WithRetry .DefaultResMgmtOpts, .WithOrdererEndpoint "orderer.example.com"] (.ok ()),
       .InstallCC ⟨"Admin", "org1"⟩
        { Name := "exampleCC", Path := "example_cc", Version := "0", Package := pkg }
        [.WithRetry .DefaultResMgmtOpts] (.ok ir),
       .InstantiateCC ⟨"Admin", "org1"⟩ "orgchannel"
        { Name := "exampleCC", Path := "example_cc", Version := "0", Args := ccInitArgs,
          Policy := .SignedByAnyMember ["Org1MSP"] }
        [.WithRetry .DefaultResMgmtOpts] r]) := by
  rcases createChannelAndCC_paths w t with hf | ⟨id, tx1, pkg, ir, tx2, h⟩
  · unfold ProvisionFailed at hf
    rcases hf with ⟨_, h⟩ | ⟨_, h⟩ | ⟨_, h⟩ | ⟨_, _, h⟩ | ⟨_, _, _, h⟩ | ⟨_, _, _, h⟩ |
      ⟨_, _, _, h⟩ | ⟨_, _, _, _, h⟩ | ⟨_, _, _, _, _, h⟩ <;> rw [h]
    · exact Or.inl rfl
    · exact Or.inl rfl
    · exact Or.inl rfl
    · exact Or.inr (Or.inl ⟨_, _, rfl⟩)
    · exact Or.inr (Or.inl ⟨_, _, rfl⟩)
    · exact Or.inr (Or.inr (Or.inl ⟨_, _, _, rfl⟩))
    · exact Or.inr (Or.inr (Or.inl ⟨_, _, _, rfl⟩))
    · exact Or.inr (Or.inr (Or.inr (Or.inl ⟨_, _, _, _, rfl⟩)))
    · exact Or.inr (Or.inr (Or.inr (Or.inr ⟨_, _, _, _, _, rfl⟩)))
  · rw [h]
    exact Or.inr (Or.inr (Or.inr (Or.inr ⟨_, _, _, _, _, rfl⟩)))

theorem upgradeCC_paths (w : World) (org1 org2 : ResMgmtClient) (t : Nat) :
    UpgradePath w org1 org2 (upgradeCC w org1 org2 t) := by
  simp only [upgradeCC, Info, call_bind_apply, bind_assoc_apply, emit_bind_apply,
    Fatalln_bind_apply, Fatalln_apply, emit_apply, Step.cons_mk]
  rcases w.NewCCPackage t _ _ with pkg | e1
  all_goals simp only [call_bind_apply, bind_assoc_apply, emit_bind_apply, Fatalln_bind_apply,
      Fatalln_apply, emit_apply, Step.cons_mk]
  swap
  · exact Or.inl ⟨e1, rfl⟩
  rcases w.InstallCC (t + 1) org1 _ _ with i1 | e2
  all_goals simp only [call_bind_apply, bind_assoc_apply, emit_bind_apply, Fatalln_bind_apply,
      Fatalln_apply, emit_apply, Step.cons_mk]
  swap
  · exact Or.inr (Or.inl ⟨pkg, e2, rfl⟩)
  rcases w.InstallCC (t + 1 + 1) org2 _ _ with i2 | e3
  all_goals simp only [call_bind_apply, bind_assoc_apply, emit_bind_apply, Fatalln_bind_apply,
      Fatalln_apply, emit_apply, Step.cons_mk]
  swap
  · exact Or.inr (Or.inr (Or.inl ⟨pkg, i1, e3, rfl⟩))
  rcases hp : w.FromString "AND ('Org1MSP.member','Org2MSP.member')" with p | e4
  all_goals simp only [call_bind_apply, bind_assoc_apply, emit_bind_apply, Fatalln_bind_apply,
      Fatalln_apply, emit_apply, Step.cons_mk]
  swap
  · exact Or.inr (Or.inr (Or.inr (Or.inl ⟨pkg, i1, i2, e4, hp, rfl⟩)))
  rcases w.UpgradeCC _ _ _ _ _ with tx | e5
  all_goals simp only [call_bind_apply, bind_assoc_apply, emit_bind_apply, Fatalln_bind_apply,
      Fatalln_apply, emit_apply, Step.cons_mk]
  · exact Or.inr (Or.inr (Or.inr (Or.inr (Or.inr ⟨pkg, i1, i2, p, tx, hp, rfl⟩))))
  · exact Or.inr (Or.inr (Or.inr (Or.inr (Or.inl ⟨pkg, i1, i2, p, e5, hp, rfl⟩))))

theorem any_of_mem {l : List Event} {p : Event → Bool} {x : Event} (hx : x ∈ l)
    (hp : p x = true) : l.any p = true := by
  rw [List.any_eq_true]
  exact ⟨x, hx, hp⟩

/-- C10: in every execution of upgradeCC, an UpgradeCC call is preceded by the build
of the package and by InstallCC of chaincode "exampleCC" version "1" answered without
error on the Org1 client and then on the Org2 client; it is issued on the Org1 client,
targets channel "orgchannel", carries name "exampleCC" and version "1" like the install
request, and its policy is what cauthdsl.FromString returned for the expression
requiring a member of Org1MSP and a member of Org2MSP; when an InstallCC fails no
UpgradeCC is issued. -/
theorem upgradeCC_after_both_installs (w : World) (org1 org2 : ResMgmtClient) (t : Nat) :
    (∀ c channel req opts r,
      Event.UpgradeCC c channel req opts r ∈ (upgradeCC w org1 org2 t).trace →
      ∃ pkg i1 i2 rest,
        (upgradeCC w org1 org2 t).trace =
          [.NewCCPackage "example_cc" "./chaincode" (.ok pkg),
            .InstallCC org1
              { Name := "exampleCC", Path := "example_cc", Version := "1", Package := pkg }
              [.WithRetry .DefaultResMgmtOpts] (.ok i1),
            .InstallCC org2
              { Name := "exampleCC", Path := "example_cc", Version := "1", Package := pkg }
              [.WithRetry .DefaultResMgmtOpts] (.ok i2),
            .UpgradeCC c channel req opts r] ++ rest ∧
        c = org1 ∧ channel = "orgchannel" ∧ req.Name = "exampleCC" ∧ req.Version = "1" ∧
        w.FromString "AND ('Org1MSP.member','Org2MSP.member')" = .ok req.Policy) ∧
    ((∃ x ∈ (upgradeCC w org1 org2 t).trace, x.isInstall = true ∧ x.failed = true) →
      ∀ x ∈ (upgradeCC w org1 org2 t).trace, x.isUpgrade = false) := by
  have hpath := upgradeCC_paths w org1 org2 t
  unfold UpgradePath at hpath
  constructor
  · intro c channel req opts r hmem
    have hany := any_of_mem hmem (p := Event.isUpgrade) rfl
    rcases hpath with ⟨_, h⟩ | ⟨_, _, h⟩ | ⟨_, _, _, h⟩ | ⟨_, _, _, _, _, h⟩ |
      ⟨pkg, i1, i2, p, e, hp, h⟩ | ⟨pkg, i1, i2, p, tx, hp, h⟩
    · rw [h] at hany; cases hany
    · rw [h] at hany; cases hany
    · rw [h] at hany; cases hany
    · rw [h] at hany; cases hany
    · rw [h] at hmem ⊢
      simp [evPackage, evInstall, evUpgrade, upgradeCCRequest, installCCRequest] at hmem
      obtain ⟨rfl, rfl, rfl, rfl, rfl⟩ := hmem
      exact ⟨pkg, i1, i2, [], rfl, rfl, rfl, rfl, rfl, hp⟩
    · rw [h] at hmem ⊢
      simp [evPackage, evInstall, evUpgrade, upgradeCCRequest, installCCRequest,
        evTransactionID] at hmem
      obtain ⟨rfl, rfl, rfl, rfl, rfl⟩ := hmem
      exact ⟨pkg, i1, i2, _, rfl, rfl, rfl, rfl, rfl, hp⟩
  · rintro ⟨x, hx, h1, h2⟩
    have hany := any_of_mem hx (p := fun x => x.isInstall && x.failed) (by simp [h1, h2])
    rcases hpath with ⟨_, h⟩ | ⟨_, _, h⟩ | ⟨_, _, _, h⟩ | ⟨_, _, _, _, _, h⟩ |
      ⟨pkg, i1, i2, p, e, hp, h⟩ | ⟨pkg, i1, i2, p, tx, hp, h⟩ <;> rw [h] at hany ⊢
    · exact all_false_of_all rfl
    · exact all_false_of_all rfl
    · exact all_false_of_all rfl
    · exact all_false_of_all rfl
    · cases hany
    · cases hany

/-- C5, the code at a world in which every call succeeds: the one network call upgradeCC
issues without a retry option is its UpgradeCC call, issued with no option at all. -/
theorem upgradeCC_issues_UpgradeCC_without_retry :
    (upgradeCC (plainWorld (fun _ => .ok []) none) ⟨"Admin", "org1"⟩ ⟨"Admin", "org2"⟩
        0).trace.filter (fun x => x.isNetworkCall && !x.hasRetry) =
      [.UpgradeCC ⟨"Admin", "org1"⟩ "orgchannel"
        { Name := "exampleCC", Path := "example_cc", Version := "1", Args := ccUpgradeArgs,
          Policy := .envelope "AND ('Org1MSP.member','Org2MSP.member')" }
        [] (.ok "tx-up")] := by
  decide

/-! ## Abort on the first error -/

theorem setupAndRun_returned_verified (w : World) (doSetup : Bool) (cfg : String)
    (opts : List String) (t : Nat)
    (h : (setupAndRun w doSetup cfg opts t).out = .returned ()) :
    ∃ v1 v2, (setupAndRun w doSetup cfg opts t).trace.filter Event.isQuery =
        [evQuery userClient (.ok v1), evQuery userClient (.ok v2)] ∧ Verified v1 v2 := by
  rcases setupAndRun_paths w doSetup cfg opts t with ⟨e, h1⟩ | ⟨-, s, hf, h1⟩ |
    ⟨pre, s, hp, hf, h1⟩ | ⟨pre, v1, reg, tx, ev, v2, hp, hv, h1⟩
  · rw [h1] at h
    cases h
  · rw [h1] at h
    exact absurd h (@exited_of_failed_path s (provisionFailed_exited hf))
  · rw [h1] at h
    exact absurd h (@exited_of_failed_path s (cycleFailed_exited hf))
  · rw [h1]
    rcases hp with ⟨-, rfl⟩ | ⟨-, _, _, _, _, _, rfl⟩
    · exact ⟨v1, v2, rfl, hv⟩
    · exact ⟨v1, v2, rfl, hv⟩

/-- C4: in every run of setupAndRun, with or without provisioning, a call that reports
an error (an error result, or the timer resolving before an event) is the last call of
the run, and the run then ends with the fatal exit; when the baseline query (the first
query of the run) fails no execute is issued, and when execute fails the baseline query
is the only query issued; a run returns only when the payloads of its two queries pass
the check, so a failed check ends the run with the fatal exit; and a run that ends with
the fatal exit performs no later call, the deferred ones included. -/
theorem setupAndRun_aborts_on_first_error (w : World) (doSetup : Bool) (cfg : String)
    (opts : List String) (t : Nat) :
    (∀ e ∈ (setupAndRun w doSetup cfg opts t).trace.dropLast, e.failed = false) ∧
    ((∃ e ∈ (setupAndRun w doSetup cfg opts t).trace, e.failed = true) →
      ∃ msg, (setupAndRun w doSetup cfg opts t).out = .exited msg) ∧
    (∀ q, (setupAndRun w doSetup cfg opts t).trace.find? Event.isQuery = some q →
      q.failed = true →
      ∀ x ∈ (setupAndRun w doSetup cfg opts t).trace, x.isExecute = false) ∧
    ((∃ x ∈ (setupAndRun w doSetup cfg opts t).trace, x.isExecute = true ∧ x.failed = true) →
      ((setupAndRun w doSetup cfg opts t).trace.filter Event.isQuery).length = 1) ∧
    ((setupAndRun w doSetup cfg opts t).out = .returned () →
      ∃ v1 v2, (setupAndRun w doSetup cfg opts t).trace.filter Event.isQuery =
          [evQuery userClient (.ok v1), evQuery userClient (.ok v2)] ∧
        ∃ V W : Int, Atoi v1 = (V, none) ∧ Atoi v2 = (W, none) ∧ wrapInt64 (V + 1) = W) ∧
    ((setupAndRun w doSetup cfg opts t).out ≠ .returned () →
      ∃ msg, (setupAndRun w doSetup cfg opts t).out = .exited msg) ∧
    ((∃ msg, (setupAndRun w doSetup cfg opts t).out = .exited msg) →
      ∀ x ∈ (setupAndRun w doSetup cfg opts t).trace, x.isDeferred = false) := by
  have hv := setupAndRun_returned_verified w doSetup cfg opts t
  have h := setupAndRun_abortCheck w doSetup cfg opts t
  generalize setupAndRun w doSetup cfg opts t = s at h hv ⊢
  simp only [abortCheck, Bool.and_eq_true, Bool.or_eq_true, Bool.not_eq_true',
    List.all_eq_true, List.any_eq_false, List.any_eq_true, beq_iff_eq,
    Bool.and_eq_true, Bool.not_eq_true] at h
  obtain ⟨⟨⟨⟨ha, hb⟩, hc⟩, hd⟩, he⟩ := h
  refine ⟨ha, ?_, ?_, ?_, hv, outcome_exited_of_ne, ?_⟩
  · rintro ⟨e, he1, he2⟩
    rcases hb with hb | hb
    · exact absurd he2 (by simp [hb e he1])
    · cases hs : s.out with
      | returned a => rw [hs] at hb; cases hb
      | exited msg => exact ⟨msg, rfl⟩
  · intro q hq hqf
    rcases hc with hc | hc
    · rw [hq] at hc
      simp [hqf] at hc
    · exact hc
  · rintro ⟨x, hx1, hx2, hx3⟩
    rcases hd with hd | hd
    · exact absurd ⟨hx2, hx3⟩ (hd x hx1)
    · exact hd
  · rintro ⟨msg, hm⟩
    rcases he with he | he
    · rw [hm] at he
      cases he
    · exact he

/-! ## Retry options -/

/-- Every network call of a run of setupAndRun carries a retry option. -/
theorem setupAndRun_calls_carry_retry (w : World) (doSetup : Bool) (cfg : String)
    (opts : List String) (t : Nat) :
    ∀ x ∈ (setupAndRun w doSetup cfg opts t).trace, (x.isNetworkCall && !x.hasRetry) = false := by
  rcases setupAndRun_paths w doSetup cfg opts t with ⟨e, h⟩ | ⟨-, s, hf, h⟩ |
    ⟨pre, s, hp, hf, h⟩ | ⟨pre, v1, reg, tx, ev, v2, hp, hv, h⟩
  · rw [h]
    exact all_false_of_all rfl
  · rw [h]
    unfold ProvisionFailed at hf
    rcases hf with ⟨_, rfl⟩ | ⟨_, rfl⟩ | ⟨_, rfl⟩ | ⟨_, _, rfl⟩ | ⟨_, _, _, rfl⟩ | ⟨_, _, _, rfl⟩ |
      ⟨_, _, _, rfl⟩ | ⟨_, _, _, _, rfl⟩ | ⟨_, _, _, _, _, rfl⟩ <;>
    exact all_false_of_all rfl
  · rw [h]
    unfold CycleFailed at hf
    rcases hp with ⟨-, rfl⟩ | ⟨-, _, _, _, _, _, rfl⟩ <;>
    rcases hf with ⟨_, rfl⟩ | ⟨_, rfl⟩ | ⟨_, _, rfl⟩ | ⟨_, _, _, rfl⟩ | ⟨_, _, _, rfl⟩ |
      ⟨_, _, _, _, _, rfl⟩ | ⟨_, _, _, _, _, _, -, rfl⟩ <;>
    exact all_false_of_all rfl
  · rw [h]
    rcases hp with ⟨-, rfl⟩ | ⟨-, _, _, _, _, _, rfl⟩ <;>
    exact all_false_of_all rfl

/-- In every run of upgradeCC the InstallCC calls carry a retry option and an UpgradeCC
call carries none. -/
theorem upgradeCC_retry_only_on_install (w : World) (org1 org2 : ResMgmtClient) (t : Nat) :
    ∀ x ∈ (upgradeCC w org1 org2 t).trace,
      (x.isNetworkCall && (x.hasRetry == x.isUpgrade)) = false := by
  have hpath := upgradeCC_paths w org1 org2 t
  unfold UpgradePath at hpath
  rcases hpath with ⟨_, h⟩ | ⟨_, _, h⟩ | ⟨_, _, _, h⟩ | ⟨_, _, _, _, _, h⟩ |
    ⟨_, _, _, _, _, _, h⟩ | ⟨_, _, _, _, _, _, h⟩ <;> rw [h] <;>
  exact all_false_of_all rfl

end Fabric
